import Mathlib

/-!
Shallow embedding of the SGBU library-management system
(modules `usuarios.py`, `catalogo.py`, `emprestimo.py`, `relatorios.py`,
exceptions from `excecoes.py`).

Modelling conventions:
* Python `datetime` values are modelled as `Int` seconds; `timedelta(days = d)`
  is `d * 86400`, and `timedelta.days` is flooring division by 86400
  (`Int.fdiv`), exactly Python's truncation toward negative infinity.
* Each module's `dict[str, T]` store is modelled as an insertion-ordered
  `List T` keyed by the entity's id field; lookup is `List.find?` on the key.
  In Python a dict key occurs at most once; in-place mutation of the object
  found by a lookup is modelled by rewriting the (unique) matching entries.
* A Python method that can raise returns `Except Erro`; methods that mutate
  state return the new state alongside the result.  When an exception escapes
  after some mutations already happened (the documented non-atomicity of the
  loan coordinator), the returned state carries those mutations.
-/

/-- Exception taxonomy of `utils/excecoes.py` (one constructor per class;
messages are irrelevant to control flow and are not modelled). -/
inductive Erro where
  | UsuarioNaoEncontrado
  | UsuarioBloqueado
  | LivroNaoEncontrado
  | LivroIndisponivel
  | EstoqueInsuficiente
  | EmprestimoJaExiste
  | EmprestimoNaoEncontrado
  | Validacao
  | UsuarioPossuiEmprestimosAtivos
  deriving DecidableEq, Repr

/-- `TipoUsuario` enum from `usuarios.py`. -/
inductive TipoUsuario where
  | ALUNO
  | FUNCIONARIO
  | PROFESSOR
  deriving DecidableEq, Repr

/-- `StatusUsuario` enum from `usuarios.py`. -/
inductive StatusUsuario where
  | ATIVO
  | BLOQUEADO
  | INATIVO
  deriving DecidableEq, Repr

/-- `StatusLivro` enum from `catalogo.py`. -/
inductive StatusLivro where
  | DISPONIVEL
  | EMPRESTADO
  | RESERVADO
  deriving DecidableEq, Repr

/-- `StatusEmprestimo` enum from `emprestimo.py`. -/
inductive StatusEmprestimo where
  | ATIVO
  | DEVOLVIDO
  | ATRASADO
  deriving DecidableEq, Repr

/-- `Usuario` dataclass from `usuarios.py`. -/
structure Usuario where
  matricula : String
  nome : String
  tipo : TipoUsuario
  status : StatusUsuario := StatusUsuario.ATIVO
  email : Option String := none
  telefone : Option String := none
  emprestimos_ativos : Nat := 0
  deriving DecidableEq, Repr

/-- `Livro` dataclass from `catalogo.py`.  `estoque` is a `Nat`: construction
validates it non-negative and the only decrement is guarded by `estoque > 0`. -/
structure Livro where
  isbn : String
  titulo : String
  autor : String
  estoque : Nat
  status : StatusLivro := StatusLivro.DISPONIVEL
  editora : Option String := none
  ano_publicacao : Option Int := none
  deriving DecidableEq, Repr

/-- `Emprestimo` dataclass from `emprestimo.py`. -/
structure Emprestimo where
  id_emprestimo : String
  matricula_usuario : String
  isbn_livro : String
  data_emprestimo : Int
  data_devolucao_prevista : Int
  data_devolucao_real : Option Int := none
  status : StatusEmprestimo := StatusEmprestimo.ATIVO
  deriving DecidableEq, Repr

/-- Combined state of the object graph: `ModuloUsuarios._usuarios`,
`ModuloCatalogo._livros`, `ModuloEmprestimo._emprestimos` and
`ModuloEmprestimo._contador_emprestimos`.  The loan coordinator holds
references to the two registries, so mutations through it are mutations of
this one shared state. -/
structure Sistema where
  usuarios : List Usuario
  livros : List Livro
  emprestimos : List Emprestimo
  contador : Nat
  deriving DecidableEq, Repr

/-! ## User registry (`ModuloUsuarios`) -/

/-- `ModuloUsuarios.obter_usuario`: lookup by matricula, raising
`UsuarioNaoEncontradoException` when absent. -/
def obter_usuario (us : List Usuario) (matricula : String) : Except Erro Usuario :=
  match us.find? (fun u => u.matricula == matricula) with
  | none => .error .UsuarioNaoEncontrado
  | some u => .ok u

/-- In-place mutation of the user object with the given matricula (a dict key,
hence unique in any Python-representable state). -/
def atualizarUsuario (us : List Usuario) (matricula : String) (f : Usuario → Usuario) :
    List Usuario :=
  us.map (fun u => if u.matricula == matricula then f u else u)

/-- `ModuloUsuarios.incrementar_emprestimos`: fetch (raising when absent), then
`usuario.emprestimos_ativos += 1`. -/
def incrementar_emprestimos (us : List Usuario) (matricula : String) :
    Except Erro (List Usuario) :=
  match obter_usuario us matricula with
  | .error e => .error e
  | .ok _ => .ok (atualizarUsuario us matricula
      (fun u => { u with emprestimos_ativos := u.emprestimos_ativos + 1 }))

/-- `ModuloUsuarios.decrementar_emprestimos`: fetch (raising when absent), then
decrement only when the counter is positive. -/
def decrementar_emprestimos (us : List Usuario) (matricula : String) :
    Except Erro (List Usuario) :=
  match obter_usuario us matricula with
  | .error e => .error e
  | .ok _ => .ok (atualizarUsuario us matricula
      (fun u => if u.emprestimos_ativos > 0 then
          { u with emprestimos_ativos := u.emprestimos_ativos - 1 }
        else u))

/-! ## Catalog registry (`ModuloCatalogo`) -/

/-- `ModuloCatalogo.obter_livro`: lookup by ISBN, raising
`LivroNaoEncontradoException` when absent. -/
def obter_livro (lv : List Livro) (isbn : String) : Except Erro Livro :=
  match lv.find? (fun l => l.isbn == isbn) with
  | none => .error .LivroNaoEncontrado
  | some l => .ok l

/-- In-place mutation of the book object with the given ISBN. -/
def atualizarLivro (lv : List Livro) (isbn : String) (f : Livro → Livro) : List Livro :=
  lv.map (fun l => if l.isbn == isbn then f l else l)

/-- `ModuloCatalogo.cadastrar_livro`: reject a duplicate ISBN, run the
`Livro._validar` checks (non-empty isbn/titulo/autor; `estoque ≥ 0` is
enforced by the `Nat` type), then append the new record. -/
def cadastrar_livro (lv : List Livro) (isbn titulo autor : String) (estoque : Nat)
    (editora : Option String) (ano_publicacao : Option Int) :
    Except Erro (Livro × List Livro) :=
  if (lv.find? (fun l => l.isbn == isbn)).isSome then .error .Validacao
  else if isbn == "" then .error .Validacao
  else if titulo == "" then .error .Validacao
  else if autor == "" then .error .Validacao
  else
    let livro : Livro := { isbn, titulo, autor, estoque, editora, ano_publicacao }
    .ok (livro, lv ++ [livro])

/-- `ModuloCatalogo.verificar_disponibilidade`: fetch (raising when absent),
then `estoque > 0`. -/
def verificar_disponibilidade (lv : List Livro) (isbn : String) : Except Erro Bool :=
  match obter_livro lv isbn with
  | .error e => .error e
  | .ok livro => .ok (livro.estoque > 0)

/-- `ModuloCatalogo.decrementar_estoque`: fetch (raising when absent), raise
`EstoqueInsuficienteException` when the stock is zero, else decrement and
return the new stock. -/
def decrementar_estoque (lv : List Livro) (isbn : String) :
    Except Erro (Nat × List Livro) :=
  match obter_livro lv isbn with
  | .error e => .error e
  | .ok livro =>
    if livro.estoque = 0 then .error .EstoqueInsuficiente
    else .ok (livro.estoque - 1,
      atualizarLivro lv isbn (fun l => { l with estoque := l.estoque - 1 }))

/-- `ModuloCatalogo.incrementar_estoque`: fetch (raising when absent), then
increment and return the new stock. -/
def incrementar_estoque (lv : List Livro) (isbn : String) :
    Except Erro (Nat × List Livro) :=
  match obter_livro lv isbn with
  | .error e => .error e
  | .ok livro =>
    .ok (livro.estoque + 1,
      atualizarLivro lv isbn (fun l => { l with estoque := l.estoque + 1 }))

/-! ## Loan coordinator (`ModuloEmprestimo`) -/

/-- `ModuloEmprestimo.__init__`: empty loan store, counter initialized to 0,
references to the two registries. -/
def moduloEmprestimoInit (us : List Usuario) (lv : List Livro) : Sistema :=
  { usuarios := us, livros := lv, emprestimos := [], contador := 0 }

/-- The loan-id format `f"EMP-{n:05d}"`: decimal digits left-padded with `'0'`
to width 5 (wider numbers are kept as-is, exactly like Python's `:05d`). -/
def empId (n : Nat) : String :=
  let s := toString n
  "EMP-" ++ (if s.length < 5 then String.mk (List.replicate (5 - s.length) '0') ++ s else s)

/-- Replace the first loan whose `id_emprestimo` matches (the dict holds at
most one, since `id_emprestimo` is the dict key). -/
def substituirEmprestimo (id_emprestimo : String) (e' : Emprestimo) :
    List Emprestimo → List Emprestimo
  | [] => []
  | e :: rest =>
    if e.id_emprestimo == id_emprestimo then e' :: rest
    else e :: substituirEmprestimo id_emprestimo e' rest

/-- `ModuloEmprestimo.registrar_emprestimo`.  Checks, in source order: user
exists, user not blocked, book exists, book available, no duplicate active
(user, book) loan.  On success: bump the counter, build the loan, insert it,
decrement the stock, increment the user's counter.  `now` stands for
`datetime.now()`; `dias` is `dias_emprestimo`. -/
def registrar_emprestimo (s : Sistema) (matricula_usuario isbn_livro : String)
    (dias now : Int) : Except Erro Emprestimo × Sistema :=
  match obter_usuario s.usuarios matricula_usuario with
  | .error _ => (.error .UsuarioNaoEncontrado, s)
  | .ok usuario =>
    if usuario.status = StatusUsuario.BLOQUEADO then (.error .UsuarioBloqueado, s)
    else
      match obter_livro s.livros isbn_livro with
      | .error _ => (.error .LivroNaoEncontrado, s)
      | .ok _ =>
        match verificar_disponibilidade s.livros isbn_livro with
        | .error e => (.error e, s)
        | .ok disp =>
          if !disp then (.error .LivroIndisponivel, s)
          else if s.emprestimos.any (fun e =>
              e.matricula_usuario == matricula_usuario &&
              e.isbn_livro == isbn_livro &&
              e.status == StatusEmprestimo.ATIVO) then
            (.error .EmprestimoJaExiste, s)
          else
            let contador := s.contador + 1
            let emprestimo : Emprestimo :=
              { id_emprestimo := empId contador
                matricula_usuario, isbn_livro
                data_emprestimo := now
                data_devolucao_prevista := now + dias * 86400 }
            let s1 := { s with emprestimos := s.emprestimos ++ [emprestimo], contador }
            match decrementar_estoque s1.livros isbn_livro with
            | .error e => (.error e, s1)
            | .ok (_, lv') =>
              let s2 := { s1 with livros := lv' }
              match incrementar_emprestimos s2.usuarios matricula_usuario with
              | .error e => (.error e, s2)
              | .ok us' => (.ok emprestimo, { s2 with usuarios := us' })

/-- `ModuloEmprestimo.registrar_devolucao`.  Raise when the loan is unknown or
not active; otherwise set the return timestamp and status first, then
increment the stock, then decrement the user's counter.  A collaborator
exception escapes with the earlier mutations already applied. -/
def registrar_devolucao (s : Sistema) (id_emprestimo : String) (now : Int) :
    Except Erro Emprestimo × Sistema :=
  match s.emprestimos.find? (fun e => e.id_emprestimo == id_emprestimo) with
  | none => (.error .EmprestimoNaoEncontrado, s)
  | some emprestimo =>
    if emprestimo.status ≠ StatusEmprestimo.ATIVO then (.error .Validacao, s)
    else
      let emprestimo' := { emprestimo with
        data_devolucao_real := some now
        status := StatusEmprestimo.DEVOLVIDO }
      let s1 := { s with
        emprestimos := substituirEmprestimo id_emprestimo emprestimo' s.emprestimos }
      match incrementar_estoque s1.livros emprestimo.isbn_livro with
      | .error e => (.error e, s1)
      | .ok (_, lv') =>
        let s2 := { s1 with livros := lv' }
        match decrementar_emprestimos s2.usuarios emprestimo.matricula_usuario with
        | .error e => (.error e, s2)
        | .ok us' => (.ok emprestimo', { s2 with usuarios := us' })

/-- `ModuloEmprestimo.listar_emprestimos`: all loans in insertion order. -/
def listar_emprestimos (s : Sistema) : List Emprestimo :=
  s.emprestimos

/-- `ModuloEmprestimo.listar_emprestimos_ativos`: loans with status `ATIVO`,
in insertion order. -/
def listar_emprestimos_ativos (s : Sistema) : List Emprestimo :=
  s.emprestimos.filter (fun e => e.status == StatusEmprestimo.ATIVO)

/-- One call to the loan coordinator: `registrar_emprestimo` or
`registrar_devolucao`, with the wall-clock instant it happens at. -/
inductive Op where
  | emprestimo (matricula_usuario isbn_livro : String) (dias now : Int)
  | devolucao (id_emprestimo : String) (now : Int)
  deriving DecidableEq, Repr

/-- Apply one coordinator call, keeping whatever state it leaves behind
(also when it raises). -/
def aplicarOp (s : Sistema) : Op → Except Erro Emprestimo × Sistema
  | .emprestimo m isbn dias now => registrar_emprestimo s m isbn dias now
  | .devolucao id_emprestimo now => registrar_devolucao s id_emprestimo now

/-- Run a sequence of coordinator calls. -/
def executar (s : Sistema) : List Op → Sistema
  | [] => s
  | op :: ops => executar (aplicarOp s op).2 ops

/-- The ids returned by the successful `registrar_emprestimo` calls of a run,
in call order. -/
def idsCriados (s : Sistema) : List Op → List String
  | [] => []
  | op :: ops =>
    match op, aplicarOp s op with
    | .emprestimo _ _ _ _, (.ok emprestimo, s') =>
      emprestimo.id_emprestimo :: idsCriados s' ops
    | _, (_, s') => idsCriados s' ops

/-! ## Reporting (`ModuloRelatorios`)

Every report is a pure read over the shared state; the `try/except: pass`
around each per-entry join is modelled by an `Option`-valued join inside
`filterMap`, so a missing entity drops that entry instead of failing the
report.  Reports that stamp `datetime.now()` take `now` as a parameter. -/

/-- One row of `relatorio_livros_mais_emprestados`. -/
structure EntradaLivroMaisEmprestado where
  isbn : String
  titulo : String
  autor : String
  quantidade_emprestimos : Nat
  deriving DecidableEq, Repr

/-- Ordered insertion: `x` goes after every element `y` with `le y x`, so an
element equal under `le` that was already in the list stays in front. -/
def inserirOrdenado {α : Type} (le : α → α → Bool) (x : α) : List α → List α
  | [] => [x]
  | y :: ys => if le y x then y :: inserirOrdenado le x ys else x :: y :: ys

/-- Stable sort by ordered insertion, processing the input left to right.
Python's `sorted` is a stable sort, and a stable sort's output is uniquely
determined by the comparison and the input order, so this models
`sorted(..., key = ..., reverse = True)` exactly (with `le` encoding the
reversed key comparison). -/
def ordenarEstavel {α : Type} (le : α → α → Bool) (l : List α) : List α :=
  l.foldl (fun acc x => inserirOrdenado le x acc) []

/-- The tally dict build-up of `relatorio_livros_mais_emprestados` /
`relatorio_usuarios_mais_ativos`: `d[k] = d.get(k, 0) + 1` over the keys in
order, the association list keeping the dict's insertion (first-occurrence)
order. -/
def contarPorChave (chaves : List String) : List (String × Nat) :=
  chaves.foldl (fun acc k =>
    if acc.any (fun p => p.1 == k) then
      acc.map (fun p => if p.1 == k then (p.1, p.2 + 1) else p)
    else acc ++ [(k, 1)]) []

/-- The loop body of `relatorio_livros_mais_emprestados`: join one tally pair
against the catalog; the `try/except: pass` drops pairs whose book is gone. -/
def linhaLivroMaisEmprestado (s : Sistema) (p : String × Nat) :
    Option EntradaLivroMaisEmprestado :=
  match obter_livro s.livros p.1 with
  | .error _ => none
  | .ok livro => some
      { isbn := p.1, titulo := livro.titulo, autor := livro.autor
        quantidade_emprestimos := p.2 }

/-- `ModuloRelatorios.relatorio_livros_mais_emprestados`: tally all loans per
ISBN, stable-sort descending by count (ties keep the tally's insertion
order), truncate to `limite`, then join each ISBN against the catalog,
silently dropping ISBNs no longer present. -/
def relatorio_livros_mais_emprestados (s : Sistema) (limite : Nat) :
    List EntradaLivroMaisEmprestado :=
  (((ordenarEstavel (fun a b => b.2 ≤ a.2)
      (contarPorChave ((listar_emprestimos s).map (fun e => e.isbn_livro)))).take
    limite)).filterMap (linhaLivroMaisEmprestado s)

/-- One row of `relatorio_emprestimos_ativos`. -/
structure EntradaEmprestimoAtivo where
  id_emprestimo : String
  usuario : String
  livro : String
  data_emprestimo : Int
  data_devolucao_prevista : Int
  dias_restantes : Int
  deriving DecidableEq, Repr

/-- The loop body of `relatorio_emprestimos_ativos`: join one loan against
the two registries; the surrounding `try/except: pass` makes a failed lookup
drop the row. -/
def linhaEmprestimoAtivo (s : Sistema) (now : Int) (e : Emprestimo) :
    Option EntradaEmprestimoAtivo :=
  match obter_usuario s.usuarios e.matricula_usuario,
        obter_livro s.livros e.isbn_livro with
  | .ok usuario, .ok livro => some
      { id_emprestimo := e.id_emprestimo
        usuario := usuario.nome
        livro := livro.titulo
        data_emprestimo := e.data_emprestimo
        data_devolucao_prevista := e.data_devolucao_prevista
        dias_restantes := Int.fdiv (e.data_devolucao_prevista - now) 86400 }
  | _, _ => none

/-- `ModuloRelatorios.relatorio_emprestimos_ativos`: one row per active loan
whose user and book lookups both still succeed;
`dias_restantes = (data_devolucao_prevista - datetime.now()).days`, i.e. the
difference in seconds floor-divided by 86400. -/
def relatorio_emprestimos_ativos (s : Sistema) (now : Int) :
    List EntradaEmprestimoAtivo :=
  (listar_emprestimos_ativos s).filterMap (linhaEmprestimoAtivo s now)

/-- Result record of `relatorio_acervo`. -/
structure RelatorioAcervo where
  total_titulos : Nat
  total_copias_disponiveis : Nat
  livros_indisponiveis : Nat
  data_geracao : Int
  deriving DecidableEq, Repr

/-- `ModuloRelatorios.relatorio_acervo`: `len(livros)`, the sum of the stocks,
and the number of zero-stock books, stamped with `now`. -/
def relatorio_acervo (s : Sistema) (now : Int) : RelatorioAcervo :=
  { total_titulos := s.livros.length
    total_copias_disponiveis := s.livros.foldl (fun acc l => acc + l.estoque) 0
    livros_indisponiveis := s.livros.countP (fun l => l.estoque == 0)
    data_geracao := now }

/-! ## Specification-side definitions and invariants -/

/-- Written from the spec's words, to be compared with
`registrar_emprestimo`: the five `create_loan` preconditions in the order
user-exists, user-not-blocked, book-exists, stock-positive, no duplicate
active (user, book) loan; the result is the error of the first failing check,
or `none` when all pass. -/
def primeiraFalhaCriacao (s : Sistema) (matricula_usuario isbn_livro : String) :
    Option Erro :=
  match s.usuarios.find? (fun u => u.matricula == matricula_usuario) with
  | none => some .UsuarioNaoEncontrado
  | some usuario =>
    if usuario.status = StatusUsuario.BLOQUEADO then some .UsuarioBloqueado
    else
      match s.livros.find? (fun l => l.isbn == isbn_livro) with
      | none => some .LivroNaoEncontrado
      | some livro =>
        if livro.estoque = 0 then some .LivroIndisponivel
        else if s.emprestimos.any (fun e =>
            e.matricula_usuario == matricula_usuario &&
            e.isbn_livro == isbn_livro &&
            e.status == StatusEmprestimo.ATIVO) then some .EmprestimoJaExiste
        else none

/-- The number of active loans of a given user in a loan store. -/
def ativosDe (es : List Emprestimo) (matricula : String) : Nat :=
  (es.filter (fun e =>
    e.matricula_usuario == matricula && e.status == StatusEmprestimo.ATIVO)).length

/-- The counter invariant: every registered user's `emprestimos_ativos`
equals the number of that user's loans with status `ATIVO`. -/
def contadoresCorretos (s : Sistema) : Prop :=
  ∀ u ∈ s.usuarios, u.emprestimos_ativos = ativosDe s.emprestimos u.matricula

/-- Every active loan still references a book present in the catalog. -/
def livrosDosAtivosExistem (s : Sistema) : Prop :=
  ∀ e ∈ s.emprestimos, e.status = StatusEmprestimo.ATIVO →
    ∃ l ∈ s.livros, l.isbn = e.isbn_livro

/-- The current stock of a book id: the stock of the catalog entry found by
lookup, 0 when absent. -/
def estoqueEm (lv : List Livro) (isbn : String) : Nat :=
  match lv.find? (fun l => l.isbn == isbn) with
  | none => 0
  | some l => l.estoque

/-- The number of currently-active loans referencing a book id. -/
def ativosDoLivroEm (es : List Emprestimo) (isbn : String) : Nat :=
  (es.filter (fun e =>
    e.isbn_livro == isbn && e.status == StatusEmprestimo.ATIVO)).length

instance : DecidablePred contadoresCorretos := fun s =>
  decidable_of_iff
    (∀ u ∈ s.usuarios, u.emprestimos_ativos = ativosDe s.emprestimos u.matricula)
    Iff.rfl

instance : DecidablePred livrosDosAtivosExistem := fun s =>
  decidable_of_iff
    (∀ e ∈ s.emprestimos, e.status = StatusEmprestimo.ATIVO →
      ∃ l ∈ s.livros, l.isbn = e.isbn_livro) Iff.rfl

/-! ## Concrete states used by witnesses, counterexamples and scenarios -/

/-- A blocked user, a stocked book: the second precondition is the first to
fail. -/
def sistemaUsuarioBloqueado : Sistema :=
  { usuarios := [⟨"U1", "Ana Silva", .ALUNO, .BLOQUEADO, none, none, 0⟩]
    livros := [⟨"B1", "Dom Casmurro", "Machado de Assis", 2, .DISPONIVEL, none, none⟩]
    emprestimos := []
    contador := 0 }

/-- A single already-returned loan. -/
def sistemaDevolvido : Sistema :=
  { usuarios := []
    livros := []
    emprestimos := [⟨"EMP-00001", "U1", "B1", 0, 604800, some 100,
      StatusEmprestimo.DEVOLVIDO⟩]
    contador := 1 }

/-- An active loan whose book is gone from the catalog. -/
def sistemaLivroRemovido : Sistema :=
  { usuarios := [⟨"U1", "Ana Silva", .ALUNO, .ATIVO, none, none, 1⟩]
    livros := []
    emprestimos := [⟨"EMP-00001", "U1", "B1", 0, 604800, none,
      StatusEmprestimo.ATIVO⟩]
    contador := 1 }

/-- Two catalog entries that share one title. -/
def sistemaTitulosRepetidos : Sistema :=
  { usuarios := []
    livros := [⟨"I1", "Duna", "Autor A", 2, .DISPONIVEL, none, none⟩,
      ⟨"I2", "Duna", "Autor B", 0, .DISPONIVEL, none, none⟩]
    emprestimos := []
    contador := 0 }

/-- The users and books of the most-borrowed scenario. -/
def cenarioRelatorio : Sistema := moduloEmprestimoInit
  [⟨"U1", "Ana Silva", .ALUNO, .ATIVO, none, none, 0⟩,
   ⟨"U2", "Bia Souza", .ALUNO, .ATIVO, none, none, 0⟩,
   ⟨"U3", "Caio Lima", .ALUNO, .ATIVO, none, none, 0⟩]
  [⟨"B1", "Titulo Um", "Autor Um", 3, .DISPONIVEL, none, none⟩,
   ⟨"B2", "Titulo Dois", "Autor Dois", 1, .DISPONIVEL, none, none⟩]

/-- Three loans of B1, one loan of B2. -/
def opsCenarioRelatorio : List Op :=
  [.emprestimo "U1" "B1" 7 0, .emprestimo "U2" "B1" 7 0,
   .emprestimo "U3" "B1" 7 0, .emprestimo "U1" "B2" 7 0]

/-- One registered user with one loan-worthy book. -/
def sistemaInvariante : Sistema := moduloEmprestimoInit
  [⟨"U1", "Ana Silva", .ALUNO, .ATIVO, none, none, 0⟩]
  [⟨"B1", "Titulo Um", "Autor Um", 2, .DISPONIVEL, none, none⟩]

/-- A user with a correct counter whose active loan references a book no
longer in the catalog. -/
def sistemaContadorQuebra : Sistema :=
  { usuarios := [⟨"U1", "Ana Silva", .ALUNO, .ATIVO, none, none, 1⟩]
    livros := []
    emprestimos := [⟨"EMP-00001", "U1", "B1", 0, 604800, none,
      StatusEmprestimo.ATIVO⟩]
    contador := 1 }

/-- One user and an empty catalog, the setting of the C3 witness. -/
def sistemaSoUsuario : Sistema := moduloEmprestimoInit
  [⟨"U1", "Ana Silva", .ALUNO, .ATIVO, none, none, 0⟩] []

/-- A stale active loan on B1 left behind after the book was removed, next to
a fresh user. -/
def sistemaEmprestimoAntigo : Sistema :=
  { usuarios := [⟨"U2", "Bia Souza", .ALUNO, .ATIVO, none, none, 0⟩]
    livros := []
    emprestimos := [⟨"EMP-00001", "U1", "B1", 0, 604800, none,
      StatusEmprestimo.ATIVO⟩]
    contador := 1 }

/-- The same state right after re-registering B1 with stock 5. -/
def sistemaLivroRecadastrado : Sistema :=
  { sistemaEmprestimoAntigo with
    livros := [⟨"B1", "Titulo Um", "Autor Um", 5, .DISPONIVEL, none, none⟩] }

/-- One user, one single-copy book, fresh coordinator: the C6 witness state. -/
def sistemaContadorTeste : Sistema := moduloEmprestimoInit
  [⟨"U1", "Ana Silva", .ALUNO, .ATIVO, none, none, 0⟩]
  [⟨"B1", "Titulo Um", "Autor Um", 1, .DISPONIVEL, none, none⟩]

/-! ## Helper lemmas -/

theorem find?_map_of_pred_preserved {α : Type} (g : α → α) (p : α → Bool)
    (h : ∀ a, p (g a) = p a) (l : List α) :
    (l.map g).find? p = (l.find? p).map g := by
  induction l with
  | nil => rfl
  | cons a l ih =>
    by_cases hpa : p a = true
    · simp [List.find?_cons, h a, hpa]
    · simp only [Bool.not_eq_true] at hpa
      simp [List.find?_cons, h a, hpa, ih]

theorem substituir_decomp (l : List Emprestimo) (idE : String) (e e' : Emprestimo)
    (h : l.find? (fun x => x.id_emprestimo == idE) = some e) :
    ∃ l1 l2, l = l1 ++ e :: l2 ∧
      (∀ x ∈ l1, (x.id_emprestimo == idE) = false) ∧
      substituirEmprestimo idE e' l = l1 ++ e' :: l2 := by
  induction l with
  | nil => simp [List.find?] at h
  | cons a l ih =>
    by_cases ha : (a.id_emprestimo == idE) = true
    · simp only [List.find?_cons, ha] at h
      cases h
      exact ⟨[], l, by simp [substituirEmprestimo, ha]⟩
    · simp only [Bool.not_eq_true] at ha
      simp only [List.find?_cons, ha] at h
      obtain ⟨l1, l2, hl, hn, hs⟩ := ih h
      refine ⟨a :: l1, l2, by simp [hl], ?_, by simp [substituirEmprestimo, ha, hs]⟩
      intro x hx
      rcases List.mem_cons.mp hx with hx | hx
      · rw [hx]; exact ha
      · exact hn x hx

theorem incrementar_emprestimos_ok (us : List Usuario) (m : String) (u : Usuario)
    (hf : us.find? (fun x => x.matricula == m) = some u) :
    incrementar_emprestimos us m = .ok (atualizarUsuario us m
      (fun v => { v with emprestimos_ativos := v.emprestimos_ativos + 1 })) := by
  simp [incrementar_emprestimos, obter_usuario, hf]

theorem decrementar_emprestimos_ok (us : List Usuario) (m : String) (u : Usuario)
    (hf : us.find? (fun x => x.matricula == m) = some u) :
    decrementar_emprestimos us m = .ok (atualizarUsuario us m
      (fun v => if v.emprestimos_ativos > 0 then
          { v with emprestimos_ativos := v.emprestimos_ativos - 1 }
        else v)) := by
  simp [decrementar_emprestimos, obter_usuario, hf]

theorem decrementar_estoque_ok (lv : List Livro) (isbn : String) (livro : Livro)
    (hf : lv.find? (fun l => l.isbn == isbn) = some livro) (h0 : ¬ livro.estoque = 0) :
    decrementar_estoque lv isbn = .ok (livro.estoque - 1,
      atualizarLivro lv isbn (fun l => { l with estoque := l.estoque - 1 })) := by
  simp [decrementar_estoque, obter_livro, hf, h0]

theorem incrementar_estoque_ok (lv : List Livro) (isbn : String) (livro : Livro)
    (hf : lv.find? (fun l => l.isbn == isbn) = some livro) :
    incrementar_estoque lv isbn = .ok (livro.estoque + 1,
      atualizarLivro lv isbn (fun l => { l with estoque := l.estoque + 1 })) := by
  simp [incrementar_estoque, obter_livro, hf]

/-! ## Claim theorems -/

/-- C2: `create_loan` checks its five preconditions in the order user-exists
(`UserNotFound`), user-not-blocked (`UserBlocked`), book-exists
(`BookNotFound`), stock positive (`BookUnavailable`), no duplicate active
(user, book) loan (`LoanAlreadyExists`); the first failing check determines
the raised error and a failing call leaves the whole state — loans, counter,
stocks, user counters — unchanged; when every check passes the call
succeeds. -/
theorem registrar_emprestimo_precondicoes (s : Sistema) (m isbn : String)
    (dias now : Int) :
    (∀ e, primeiraFalhaCriacao s m isbn = some e →
      registrar_emprestimo s m isbn dias now = (.error e, s)) ∧
    (primeiraFalhaCriacao s m isbn = none →
      ∃ emprestimo, (registrar_emprestimo s m isbn dias now).1 = .ok emprestimo) := by
  constructor
  · intro e he
    unfold primeiraFalhaCriacao at he
    cases hfu : s.usuarios.find? (fun u => u.matricula == m) with
    | none =>
      simp only [hfu] at he
      cases he
      simp [registrar_emprestimo, obter_usuario, hfu]
    | some usuario =>
      simp only [hfu] at he
      by_cases hb : usuario.status = StatusUsuario.BLOQUEADO
      · rw [if_pos hb] at he
        cases he
        simp [registrar_emprestimo, obter_usuario, hfu, hb]
      · rw [if_neg hb] at he
        cases hfl : s.livros.find? (fun l => l.isbn == isbn) with
        | none =>
          simp only [hfl] at he
          cases he
          simp [registrar_emprestimo, obter_usuario, obter_livro, hfu, hfl, hb]
        | some livro =>
          simp only [hfl] at he
          by_cases h0 : livro.estoque = 0
          · rw [if_pos h0] at he
            cases he
            simp [registrar_emprestimo, obter_usuario, obter_livro,
              verificar_disponibilidade, hfu, hfl, hb, h0]
          · rw [if_neg h0] at he
            by_cases hdup : s.emprestimos.any (fun e =>
                e.matricula_usuario == m && e.isbn_livro == isbn &&
                e.status == StatusEmprestimo.ATIVO) = true
            · rw [if_pos hdup] at he
              cases he
              simp [registrar_emprestimo, obter_usuario, obter_livro,
                verificar_disponibilidade, hfu, hfl, hb, h0, hdup,
                Nat.pos_iff_ne_zero]
            · rw [if_neg hdup] at he
              cases he
  · intro hn
    unfold primeiraFalhaCriacao at hn
    cases hfu : s.usuarios.find? (fun u => u.matricula == m) with
    | none => simp only [hfu] at hn; cases hn
    | some usuario =>
      simp only [hfu] at hn
      by_cases hb : usuario.status = StatusUsuario.BLOQUEADO
      · rw [if_pos hb] at hn; cases hn
      · rw [if_neg hb] at hn
        cases hfl : s.livros.find? (fun l => l.isbn == isbn) with
        | none => simp only [hfl] at hn; cases hn
        | some livro =>
          simp only [hfl] at hn
          by_cases h0 : livro.estoque = 0
          · rw [if_pos h0] at hn; cases hn
          · rw [if_neg h0] at hn
            by_cases hdup : s.emprestimos.any (fun e =>
                e.matricula_usuario == m && e.isbn_livro == isbn &&
                e.status == StatusEmprestimo.ATIVO) = true
            · rw [if_pos hdup] at hn; cases hn
            · refine ⟨⟨empId (s.contador + 1), m, isbn, now,
                now + dias * 86400, none, StatusEmprestimo.ATIVO⟩, ?_⟩
              simp [registrar_emprestimo, obter_usuario, obter_livro,
                verificar_disponibilidade, hfu, hfl, hb, h0, hdup,
                Nat.pos_iff_ne_zero, decrementar_estoque, incrementar_emprestimos]

/-- Witness for C2: on a blocked user, `registrar_emprestimo` raises
`UsuarioBloqueado` and returns the state unchanged. -/
theorem registrar_emprestimo_precondicoes_witness :
    registrar_emprestimo sistemaUsuarioBloqueado "U1" "B1" 7 0 =
      (.error .UsuarioBloqueado, sistemaUsuarioBloqueado) :=
  (registrar_emprestimo_precondicoes sistemaUsuarioBloqueado "U1" "B1" 7 0).1
    .UsuarioBloqueado (by decide)

/-- C4: `return_loan` on an unknown loan id fails with
`EmprestimoNaoEncontrado`, and on a loan whose status is not `ATIVO` fails
with `Validacao`; in both cases the returned state is exactly the input
state: no stock increment, no counter decrement, no change to the loan's
status or return timestamp. -/
theorem registrar_devolucao_falhas (s : Sistema) (idE : String) (now : Int) :
    (s.emprestimos.find? (fun e => e.id_emprestimo == idE) = none →
      registrar_devolucao s idE now = (.error .EmprestimoNaoEncontrado, s)) ∧
    (∀ emprestimo,
      s.emprestimos.find? (fun e => e.id_emprestimo == idE) = some emprestimo →
      emprestimo.status ≠ StatusEmprestimo.ATIVO →
      registrar_devolucao s idE now = (.error .Validacao, s)) := by
  constructor
  · intro h
    simp [registrar_devolucao, h]
  · intro emprestimo hf hs
    simp [registrar_devolucao, hf, hs]

/-- Witness for C4: an unknown id and a double return, both leaving the state
untouched. -/
theorem registrar_devolucao_falhas_witness :
    registrar_devolucao sistemaDevolvido "EMP-00002" 5 =
      (.error .EmprestimoNaoEncontrado, sistemaDevolvido) ∧
    registrar_devolucao sistemaDevolvido "EMP-00001" 5 =
      (.error .Validacao, sistemaDevolvido) :=
  ⟨(registrar_devolucao_falhas sistemaDevolvido "EMP-00002" 5).1 (by decide),
   (registrar_devolucao_falhas sistemaDevolvido "EMP-00001" 5).2
     ⟨"EMP-00001", "U1", "B1", 0, 604800, some 100, StatusEmprestimo.DEVOLVIDO⟩
     (by decide) (by decide)⟩

/-- C5 counterexample: `decrementar_emprestimos` is not total — on an id
absent from the registry it raises `UsuarioNaoEncontrado` (it calls
`obter_usuario` first), so "never fails" is false as stated. -/
theorem decrementar_emprestimos_falha_em_ausente :
    decrementar_emprestimos [] "U1" = .error .UsuarioNaoEncontrado := rfl

/-- Key-preserving updates commute with key lookup: looking a matricula up
after `atualizarUsuario` finds the updated image of the record the lookup
would have found before. -/
theorem find?_atualizarUsuario (us : List Usuario) (m m' : String)
    (f : Usuario → Usuario) (hf : ∀ u, (f u).matricula = u.matricula) :
    (atualizarUsuario us m f).find? (fun u => u.matricula == m') =
      (us.find? (fun u => u.matricula == m')).map
        (fun u => if u.matricula == m then f u else u) := by
  apply find?_map_of_pred_preserved
  intro a
  by_cases h : (a.matricula == m) = true
  · simp [h, hf]
  · simp only [Bool.not_eq_true] at h
    simp [h]

/-- C5 (amended): for an id absent from the registry the call raises
`UsuarioNaoEncontrado`; for a registered user it never fails: a positive
counter is decremented by exactly 1 (the found record becomes the same user
with counter one lower, which for counter 0 is the unchanged record), and
when the counter is already 0 the whole registry is returned unchanged. -/
theorem decrementar_emprestimos_piso_zero (us : List Usuario) (m : String) :
    (us.find? (fun u => u.matricula == m) = none →
      decrementar_emprestimos us m = .error .UsuarioNaoEncontrado) ∧
    (∀ u, us.find? (fun u => u.matricula == m) = some u →
      ∃ us', decrementar_emprestimos us m = .ok us' ∧
        us'.find? (fun v => v.matricula == m) =
          some { u with emprestimos_ativos := u.emprestimos_ativos - 1 } ∧
        ((us.map (fun v => v.matricula)).Nodup → u.emprestimos_ativos = 0 →
          us' = us)) := by
  constructor
  · intro h
    simp [decrementar_emprestimos, obter_usuario, h]
  · intro u hf
    have hpu : (u.matricula == m) = true := by
      simpa using List.find?_some hf
    refine ⟨_, decrementar_emprestimos_ok us m u hf, ?_, ?_⟩
    · rw [find?_atualizarUsuario us m m _
        (fun v => by by_cases h : v.emprestimos_ativos > 0 <;> simp [h]), hf]
      simp only [Option.map_some', hpu, if_true]
      by_cases h0 : u.emprestimos_ativos > 0
      · rw [if_pos h0]
      · rw [if_neg h0]
        have h0' : u.emprestimos_ativos = 0 := by omega
        cases u
        simp only at h0' ⊢
        rw [h0']
    · intro hnd h0
      have hmem := List.mem_of_find?_eq_some hf
      have hinj := List.inj_on_of_nodup_map hnd
      have hcong : atualizarUsuario us m
          (fun v => if v.emprestimos_ativos > 0 then
            { v with emprestimos_ativos := v.emprestimos_ativos - 1 }
          else v) = us.map id := by
        apply List.map_congr_left
        intro v hv
        by_cases hvm : (v.matricula == m) = true
        · have hvu : v = u := by
            apply hinj hv hmem
            rw [beq_iff_eq] at hpu hvm
            rw [hvm, hpu]
          subst hvu
          simp [atualizarUsuario, hvm, h0]
        · simp only [Bool.not_eq_true] at hvm
          simp [atualizarUsuario, hvm]
      show atualizarUsuario us m _ = us
      rw [hcong, List.map_id]

/-- Witness for C5 (amended): a one-user registry with the counter at 0;
decrementing does not fail and is a no-op. -/
theorem decrementar_emprestimos_piso_zero_witness :
    ∃ us', decrementar_emprestimos
        [⟨"U1", "Ana Silva", .ALUNO, .ATIVO, none, none, 0⟩] "U1" = .ok us' ∧
      us'.find? (fun v => v.matricula == "U1") =
        some ⟨"U1", "Ana Silva", .ALUNO, .ATIVO, none, none, 0 - 1⟩ ∧
      ((([⟨"U1", "Ana Silva", .ALUNO, .ATIVO, none, none, 0⟩] :
          List Usuario).map (fun v => v.matricula)).Nodup →
        (0 : Nat) = 0 →
        us' = [⟨"U1", "Ana Silva", .ALUNO, .ATIVO, none, none, 0⟩]) := by
  exact (decrementar_emprestimos_piso_zero
    [⟨"U1", "Ana Silva", .ALUNO, .ATIVO, none, none, 0⟩] "U1").2
    ⟨"U1", "Ana Silva", .ALUNO, .ATIVO, none, none, 0⟩ (by decide)

/-- `find?` skips a prefix on which the predicate is everywhere false. -/
theorem find?_append_all_false {α : Type} (p : α → Bool) (l1 l2 : List α)
    (h : ∀ x ∈ l1, p x = false) : (l1 ++ l2).find? p = l2.find? p := by
  induction l1 with
  | nil => rfl
  | cons a l ih =>
    have ha : p a = false := h a (by simp)
    simp only [List.cons_append, List.find?_cons, ha]
    exact ih (fun x hx => h x (by simp [hx]))

/-- C10: `return_loan` mutates the loan before calling the collaborators:
when the loan is active but its book was removed from the catalog, the call
raises `LivroNaoEncontrado` yet leaves the loan marked `DEVOLVIDO` with its
return timestamp set, while the user registry (hence the user's counter), the
catalog and the loan counter are untouched — the failure is not atomic. -/
theorem registrar_devolucao_nao_atomica (s : Sistema) (idE : String) (now : Int)
    (emprestimo : Emprestimo)
    (hf : s.emprestimos.find? (fun e => e.id_emprestimo == idE) = some emprestimo)
    (ha : emprestimo.status = StatusEmprestimo.ATIVO)
    (hl : s.livros.find? (fun l => l.isbn == emprestimo.isbn_livro) = none) :
    ∃ s', registrar_devolucao s idE now = (.error .LivroNaoEncontrado, s') ∧
      s'.usuarios = s.usuarios ∧ s'.livros = s.livros ∧
      s'.contador = s.contador ∧
      s'.emprestimos.find? (fun e => e.id_emprestimo == idE) =
        some ⟨emprestimo.id_emprestimo, emprestimo.matricula_usuario,
          emprestimo.isbn_livro, emprestimo.data_emprestimo,
          emprestimo.data_devolucao_prevista, some now,
          StatusEmprestimo.DEVOLVIDO⟩ := by
  have hid : (emprestimo.id_emprestimo == idE) = true := by
    simpa using List.find?_some hf
  have hrec : ({ emprestimo with
      data_devolucao_real := some now
      status := StatusEmprestimo.DEVOLVIDO } : Emprestimo) =
      ⟨emprestimo.id_emprestimo, emprestimo.matricula_usuario,
        emprestimo.isbn_livro, emprestimo.data_emprestimo,
        emprestimo.data_devolucao_prevista, some now,
        StatusEmprestimo.DEVOLVIDO⟩ := rfl
  obtain ⟨l1, l2, hdec, hni, hsub⟩ := substituir_decomp s.emprestimos idE emprestimo
    ⟨emprestimo.id_emprestimo, emprestimo.matricula_usuario,
      emprestimo.isbn_livro, emprestimo.data_emprestimo,
      emprestimo.data_devolucao_prevista, some now,
      StatusEmprestimo.DEVOLVIDO⟩ hf
  refine ⟨⟨s.usuarios, s.livros,
    substituirEmprestimo idE ⟨emprestimo.id_emprestimo,
      emprestimo.matricula_usuario, emprestimo.isbn_livro,
      emprestimo.data_emprestimo, emprestimo.data_devolucao_prevista,
      some now, StatusEmprestimo.DEVOLVIDO⟩ s.emprestimos,
    s.contador⟩, ?_, rfl, rfl, rfl, ?_⟩
  · simp only [registrar_devolucao, hf, ha, hrec]
    simp [incrementar_estoque, obter_livro, hl]
  · show (substituirEmprestimo idE _ s.emprestimos).find? _ = _
    rw [hsub, find?_append_all_false _ _ _ hni]
    simp [List.find?_cons, hid]

/-- Witness for C10: returning the loan raises `LivroNaoEncontrado` but the
loan is left returned with its timestamp set and the registries untouched. -/
theorem registrar_devolucao_nao_atomica_witness :
    ∃ s', registrar_devolucao sistemaLivroRemovido "EMP-00001" 5 =
        (.error .LivroNaoEncontrado, s') ∧
      s'.usuarios = sistemaLivroRemovido.usuarios ∧
      s'.livros = sistemaLivroRemovido.livros ∧
      s'.contador = sistemaLivroRemovido.contador ∧
      s'.emprestimos.find? (fun e => e.id_emprestimo == "EMP-00001") =
        some ⟨"EMP-00001", "U1", "B1", 0, 604800, some 5,
          StatusEmprestimo.DEVOLVIDO⟩ := by
  exact registrar_devolucao_nao_atomica sistemaLivroRemovido "EMP-00001" 5
    ⟨"EMP-00001", "U1", "B1", 0, 604800, none, StatusEmprestimo.ATIVO⟩
    (by decide) (by decide) (by decide)

/-- C9 counterexample: with two books sharing the title "Duna" the report's
`total_titulos` is 2 — the number of catalog entries — while the number of
distinct titles is 1, so "total number of distinct book titles" is false as
stated. -/
theorem relatorio_acervo_nao_conta_titulos_distintos :
    (relatorio_acervo sistemaTitulosRepetidos 0).total_titulos = 2 ∧
    ((sistemaTitulosRepetidos.livros.map (fun l => l.titulo)).dedup).length = 1 ∧
    (relatorio_acervo sistemaTitulosRepetidos 0).total_titulos ≠
      ((sistemaTitulosRepetidos.livros.map (fun l => l.titulo)).dedup).length := by
  decide

/-- C9 (amended): `collection_summary` returns the number of registered books
(with unique ISBN keys, the number of distinct ISBNs), the sum of stocks
across all books, the count of zero-stock books, and the generation
timestamp. -/
theorem relatorio_acervo_conteudo (s : Sistema) (now : Int) :
    ((s.livros.map (fun l => l.isbn)).Nodup →
      (relatorio_acervo s now).total_titulos =
        ((s.livros.map (fun l => l.isbn)).dedup).length) ∧
    (relatorio_acervo s now).total_copias_disponiveis =
      (s.livros.map (fun l => l.estoque)).sum ∧
    (relatorio_acervo s now).livros_indisponiveis =
      (s.livros.filter (fun l => l.estoque == 0)).length ∧
    (relatorio_acervo s now).data_geracao = now := by
  refine ⟨?_, ?_, ?_, rfl⟩
  · intro h
    simp [relatorio_acervo, List.Nodup.dedup h]
  · show s.livros.foldl (fun acc l => acc + l.estoque) 0 = _
    rw [List.sum_eq_foldl, ← List.foldl_map]
  · exact s.livros.countP_eq_length_filter (fun l => l.estoque == 0)

/-- Witness for C9 (amended), at a concrete two-book catalog whose ISBN keys
are distinct. -/
theorem relatorio_acervo_conteudo_witness :
    (relatorio_acervo sistemaTitulosRepetidos 7).total_titulos =
      ((sistemaTitulosRepetidos.livros.map (fun l => l.isbn)).dedup).length ∧
    (relatorio_acervo sistemaTitulosRepetidos 7).total_copias_disponiveis =
      (sistemaTitulosRepetidos.livros.map (fun l => l.estoque)).sum :=
  ⟨(relatorio_acervo_conteudo sistemaTitulosRepetidos 7).1 (by decide),
   (relatorio_acervo_conteudo sistemaTitulosRepetidos 7).2.1⟩

/-- Auxiliary for C8: over any loan list, the report keeps exactly the loans
on which both registry joins succeed, in order. -/
theorem ids_filterMap_linha (s : Sistema) (now : Int) (ls : List Emprestimo) :
    (ls.filterMap (linhaEmprestimoAtivo s now)).map (fun r => r.id_emprestimo) =
      (ls.filter (fun e =>
        (s.usuarios.find? (fun u => u.matricula == e.matricula_usuario)).isSome &&
        (s.livros.find? (fun l => l.isbn == e.isbn_livro)).isSome)).map
          (fun e => e.id_emprestimo) := by
  induction ls with
  | nil => rfl
  | cons e ls ih =>
    cases hu : s.usuarios.find? (fun u => u.matricula == e.matricula_usuario) with
    | none => simp [linhaEmprestimoAtivo, obter_usuario, hu, ih]
    | some u =>
      cases hl : s.livros.find? (fun l => l.isbn == e.isbn_livro) with
      | none => simp [linhaEmprestimoAtivo, obter_usuario, obter_livro, hu, hl, ih]
      | some l => simp [linhaEmprestimoAtivo, obter_usuario, obter_livro, hu, hl, ih]

/-- C8: `active_loans_report` (a total function — no row can make it raise)
contains, in storage order, exactly one row per loan with status `ATIVO`
whose user and book lookups both still succeed — loans whose user or book was
removed are silently omitted — and a row's `dias_restantes` is the due
timestamp minus `now` floor-divided by 86400 (truncation toward negative
infinity, hence negative when overdue). -/
theorem relatorio_emprestimos_ativos_conteudo (s : Sistema) (now : Int) :
    ((relatorio_emprestimos_ativos s now).map (fun r => r.id_emprestimo) =
      ((listar_emprestimos_ativos s).filter (fun e =>
        (s.usuarios.find? (fun u => u.matricula == e.matricula_usuario)).isSome &&
        (s.livros.find? (fun l => l.isbn == e.isbn_livro)).isSome)).map
          (fun e => e.id_emprestimo)) ∧
    (∀ r, r ∈ relatorio_emprestimos_ativos s now ↔
      ∃ e ∈ s.emprestimos, e.status = StatusEmprestimo.ATIVO ∧
        ∃ u, s.usuarios.find? (fun x => x.matricula == e.matricula_usuario) = some u ∧
        ∃ l, s.livros.find? (fun x => x.isbn == e.isbn_livro) = some l ∧
          r = ⟨e.id_emprestimo, u.nome, l.titulo, e.data_emprestimo,
            e.data_devolucao_prevista,
            Int.fdiv (e.data_devolucao_prevista - now) 86400⟩) := by
  constructor
  · exact ids_filterMap_linha s now _
  · intro r
    rw [relatorio_emprestimos_ativos, List.mem_filterMap]
    constructor
    · rintro ⟨e, he, hline⟩
      rw [listar_emprestimos_ativos, List.mem_filter] at he
      obtain ⟨hee, hst⟩ := he
      refine ⟨e, hee, by simpa using hst, ?_⟩
      cases hu : s.usuarios.find? (fun x => x.matricula == e.matricula_usuario) with
      | none => simp [linhaEmprestimoAtivo, obter_usuario, hu] at hline
      | some u =>
        cases hl : s.livros.find? (fun x => x.isbn == e.isbn_livro) with
        | none =>
          simp [linhaEmprestimoAtivo, obter_usuario, obter_livro, hu, hl] at hline
        | some l =>
          refine ⟨u, rfl, l, rfl, ?_⟩
          simp [linhaEmprestimoAtivo, obter_usuario, obter_livro, hu, hl] at hline
          exact hline.symm
    · rintro ⟨e, hee, hst, u, hu, l, hl, hr⟩
      refine ⟨e, ?_, ?_⟩
      · rw [listar_emprestimos_ativos, List.mem_filter]
        exact ⟨hee, by simp [hst]⟩
      · simp [linhaEmprestimoAtivo, obter_usuario, obter_livro, hu, hl, hr]

/-- Membership through ordered insertion. -/
theorem mem_inserirOrdenado {α : Type} (le : α → α → Bool) (x y : α)
    (l : List α) : y ∈ inserirOrdenado le x l ↔ y = x ∨ y ∈ l := by
  induction l with
  | nil => simp [inserirOrdenado]
  | cons a l ih =>
    by_cases h : le a x = true
    · rw [inserirOrdenado, if_pos h]
      simp only [List.mem_cons, ih]
      tauto
    · rw [inserirOrdenado, if_neg h]
      simp only [List.mem_cons]

/-- Ordered insertion preserves sortedness (for a total, transitive
comparison). -/
theorem pairwise_inserirOrdenado {α : Type} (le : α → α → Bool)
    (htr : ∀ a b c, le a b = true → le b c = true → le a c = true)
    (hto : ∀ a b, le a b = true ∨ le b a = true)
    (x : α) (l : List α) (hl : l.Pairwise (fun a b => le a b = true)) :
    (inserirOrdenado le x l).Pairwise (fun a b => le a b = true) := by
  induction l with
  | nil => simp [inserirOrdenado]
  | cons a l ih =>
    obtain ⟨ha, hl'⟩ := List.pairwise_cons.mp hl
    by_cases h : le a x = true
    · rw [inserirOrdenado, if_pos h]
      refine List.pairwise_cons.mpr ⟨?_, ih hl'⟩
      intro b hb
      rcases (mem_inserirOrdenado le x b l).mp hb with rfl | hbl
      · exact h
      · exact ha b hbl
    · rw [inserirOrdenado, if_neg h]
      refine List.pairwise_cons.mpr ⟨?_, hl⟩
      intro b hb
      have hxa : le x a = true := by
        rcases hto x a with h1 | h1
        · exact h1
        · exact absurd h1 h
      rcases List.mem_cons.mp hb with rfl | hbl
      · exact hxa
      · exact htr x a b hxa (ha b hbl)

/-- Membership through the insertion-sort fold. -/
theorem foldl_inserir_mem {α : Type} (le : α → α → Bool) (y : α) :
    ∀ (l acc : List α),
      (y ∈ l.foldl (fun acc x => inserirOrdenado le x acc) acc ↔
        y ∈ acc ∨ y ∈ l)
  | [], acc => by simp
  | x :: l, acc => by
    rw [List.foldl_cons, foldl_inserir_mem le y l _]
    simp only [mem_inserirOrdenado, List.mem_cons]
    tauto

/-- The stable sort is a membership-preserving reordering. -/
theorem mem_ordenarEstavel {α : Type} (le : α → α → Bool) (l : List α)
    (y : α) : y ∈ ordenarEstavel le l ↔ y ∈ l := by
  rw [ordenarEstavel, foldl_inserir_mem]
  simp

/-- Sortedness of the insertion-sort fold. -/
theorem foldl_inserir_pairwise {α : Type} (le : α → α → Bool)
    (htr : ∀ a b c, le a b = true → le b c = true → le a c = true)
    (hto : ∀ a b, le a b = true ∨ le b a = true) :
    ∀ (l acc : List α), acc.Pairwise (fun a b => le a b = true) →
      (l.foldl (fun acc x => inserirOrdenado le x acc) acc).Pairwise
        (fun a b => le a b = true)
  | [], _, h => h
  | x :: l, acc, h => by
    rw [List.foldl_cons]
    exact foldl_inserir_pairwise le htr hto l _
      (pairwise_inserirOrdenado le htr hto x acc h)

/-- The stable sort sorts. -/
theorem pairwise_ordenarEstavel {α : Type} (le : α → α → Bool)
    (htr : ∀ a b c, le a b = true → le b c = true → le a c = true)
    (hto : ∀ a b, le a b = true ∨ le b a = true) (l : List α) :
    (ordenarEstavel le l).Pairwise (fun a b => le a b = true) :=
  foldl_inserir_pairwise le htr hto l [] (by simp)

/-- The tally is correct: each entry's count is the number of occurrences of
its key in the input, and the tally's keys are exactly the input's elements. -/
theorem contarPorChave_spec (ks : List String) :
    (∀ p ∈ contarPorChave ks,
      p.2 = (ks.filter (fun x => x == p.1)).length) ∧
    (∀ x, x ∈ ks ↔ x ∈ (contarPorChave ks).map Prod.fst) := by
  induction ks using List.reverseRecOn with
  | nil => simp [contarPorChave]
  | append_singleton ks k ih =>
    obtain ⟨ih1, ih2⟩ := ih
    have hstep : contarPorChave (ks ++ [k]) =
        (if (contarPorChave ks).any (fun p => p.1 == k) then
          (contarPorChave ks).map
            (fun p => if p.1 == k then (p.1, p.2 + 1) else p)
        else contarPorChave ks ++ [(k, 1)]) := by
      rw [contarPorChave, List.foldl_append]
      rfl
    by_cases hany : (contarPorChave ks).any (fun p => p.1 == k) = true
    · rw [hstep, if_pos hany]
      constructor
      · intro p' hp'
        obtain ⟨p, hp, rfl⟩ := List.mem_map.mp hp'
        by_cases hpk : (p.1 == k) = true
        · have hpe : p.1 = k := by simpa using hpk
          rw [if_pos hpk]
          simp [List.filter_append, ih1 p hp, hpe]
        · have hpe : ¬ p.1 = k := by simpa using hpk
          rw [if_neg hpk]
          have : (k == p.1) = false := by
            simp
            exact fun h => hpe h.symm
          simp [List.filter_append, ih1 p hp, this]
      · intro x
        have hkeys : ((contarPorChave ks).map
            (fun p => if p.1 == k then (p.1, p.2 + 1) else p)).map Prod.fst =
            (contarPorChave ks).map Prod.fst := by
          rw [List.map_map]
          apply List.map_congr_left
          intro p _
          by_cases hpk : p.1 = k <;> simp [hpk]
        rw [hkeys, List.mem_append, ih2 x]
        constructor
        · rintro (hx | hx)
          · exact hx
          · obtain ⟨p, hp, hpk⟩ := List.any_eq_true.mp hany
            have hpe : p.1 = k := by simpa using hpk
            have hk2 : x = p.1 := by
              rw [hpe]
              simpa using hx
            rw [hk2]
            exact List.mem_map.mpr ⟨p, hp, rfl⟩
        · intro hx
          exact Or.inl hx
    · have hanyf : (contarPorChave ks).any (fun p => p.1 == k) = false :=
        Bool.eq_false_iff.mpr hany
      have hnone : ∀ p ∈ contarPorChave ks, ¬ (p.1 == k) = true :=
        List.any_eq_false.mp hanyf
      have hknotin : k ∉ ks := by
        intro hin
        obtain ⟨p, hp, hpe⟩ := List.mem_map.mp ((ih2 k).mp hin)
        exact hnone p hp (by simp [hpe])
      rw [hstep, if_neg hany]
      constructor
      · intro p' hp'
        rcases List.mem_append.mp hp' with hpa | hpk
        · have hpe : ¬ p'.1 = k := fun h => hnone p' hpa (by simp [h])
          have : (k == p'.1) = false := by
            simp
            exact fun h => hpe h.symm
          simp [List.filter_append, ih1 p' hpa, this]
        · have hp1 : p' = (k, 1) := by simpa using hpk
          subst hp1
          have hzero : ks.filter (fun x => x == k) = [] := by
            rw [List.filter_eq_nil_iff]
            intro a ha
            simp only [beq_iff_eq]
            exact fun h => hknotin (h ▸ ha)
          simp [List.filter_append, hzero]
      · intro x
        simp only [List.map_append, List.mem_append, ih2 x, List.map_cons,
          List.map_nil, List.mem_singleton]

/-- What one successful catalog join of the most-borrowed report contains. -/
theorem linhaLivro_spec (s : Sistema) (p : String × Nat)
    (ent : EntradaLivroMaisEmprestado)
    (h : linhaLivroMaisEmprestado s p = some ent) :
    ent.isbn = p.1 ∧ ent.quantidade_emprestimos = p.2 ∧
    ∃ livro, s.livros.find? (fun l => l.isbn == p.1) = some livro ∧
      ent.titulo = livro.titulo ∧ ent.autor = livro.autor := by
  cases hf : s.livros.find? (fun l => l.isbn == p.1) with
  | none => simp [linhaLivroMaisEmprestado, obter_livro, hf] at h
  | some livro =>
    simp only [linhaLivroMaisEmprestado, obter_livro, hf, Option.some.injEq] at h
    subst h
    exact ⟨rfl, rfl, livro, rfl, rfl, rfl⟩

/-- C7: `most_borrowed_books` tallies one count per book id over all loans,
sorts descending by count (stably — ties keep the tally's first-occurrence
order), truncates to `limite`, and silently drops entries whose book left the
catalog: every report is sorted by descending count, has at most `limite`
rows, and each row carries the exact number of loans (active and returned) of
a book still in the catalog together with that book's title and author; in
particular, after 3 loans of B1 and 1 of B2 with limit 10, the report ranks
B1 (count 3) above B2 (count 1). -/
theorem relatorio_livros_mais_emprestados_conteudo :
    (∀ s limite,
      (relatorio_livros_mais_emprestados s limite).Pairwise
        (fun a b => b.quantidade_emprestimos ≤ a.quantidade_emprestimos) ∧
      (relatorio_livros_mais_emprestados s limite).length ≤ limite ∧
      (∀ ent ∈ relatorio_livros_mais_emprestados s limite,
        ent.quantidade_emprestimos =
          ((listar_emprestimos s).filter
            (fun e => e.isbn_livro == ent.isbn)).length ∧
        ∃ livro, s.livros.find? (fun l => l.isbn == ent.isbn) = some livro ∧
          ent.titulo = livro.titulo ∧ ent.autor = livro.autor)) ∧
    relatorio_livros_mais_emprestados
        (executar cenarioRelatorio opsCenarioRelatorio) 10 =
      [⟨"B1", "Titulo Um", "Autor Um", 3⟩,
       ⟨"B2", "Titulo Dois", "Autor Dois", 1⟩] := by
  constructor
  · intro s limite
    have htr : ∀ (a b c : String × Nat),
        (decide (b.2 ≤ a.2)) = true → (decide (c.2 ≤ b.2)) = true →
        (decide (c.2 ≤ a.2)) = true := by
      intro a b c hab hbc
      simp only [decide_eq_true_eq] at *
      omega
    have hto : ∀ (a b : String × Nat),
        (decide (b.2 ≤ a.2)) = true ∨ (decide (a.2 ≤ b.2)) = true := by
      intro a b
      simp only [decide_eq_true_eq]
      exact Nat.le_total b.2 a.2
    refine ⟨?_, ?_, ?_⟩
    · have hsorted := pairwise_ordenarEstavel
        (fun (a b : String × Nat) => decide (b.2 ≤ a.2)) htr hto
        (contarPorChave ((listar_emprestimos s).map (fun e => e.isbn_livro)))
      have htake := List.Pairwise.sublist
        (List.take_sublist limite _) hsorted
      rw [relatorio_livros_mais_emprestados, List.pairwise_filterMap]
      refine htake.imp ?_
      intro p q hpq ent hent ent' hent'
      rw [Option.mem_def] at hent hent'
      obtain ⟨_, hq, _⟩ := linhaLivro_spec s p ent hent
      obtain ⟨_, hq', _⟩ := linhaLivro_spec s q ent' hent'
      rw [hq, hq']
      simpa using hpq
    · exact le_trans (List.length_filterMap_le _ _) (List.length_take_le _ _)
    · intro ent hent
      rw [relatorio_livros_mais_emprestados] at hent
      obtain ⟨p, hp, hlook⟩ := List.mem_filterMap.mp hent
      have hpc : p ∈ contarPorChave
          ((listar_emprestimos s).map (fun e => e.isbn_livro)) :=
        (mem_ordenarEstavel _ _ _).mp ((List.take_sublist _ _).mem hp)
      have hcount := (contarPorChave_spec
        ((listar_emprestimos s).map (fun e => e.isbn_livro))).1 p hpc
      obtain ⟨hisbn, hq, livro, hfind, ht, ha⟩ := linhaLivro_spec s p ent hlook
      constructor
      · rw [hq, hcount, hisbn, List.filter_map, List.length_map]
        congr 1
      · exact ⟨livro, by rw [hisbn]; exact hfind, ht, ha⟩
  · decide

/-- Witness for C7 at the scenario state: the B1 row carries count 3 and the
catalog's title and author. -/
theorem relatorio_livros_mais_emprestados_conteudo_witness :
    (3 : Nat) =
      ((listar_emprestimos (executar cenarioRelatorio opsCenarioRelatorio)).filter
        (fun e => e.isbn_livro == "B1")).length ∧
    ∃ livro, (executar cenarioRelatorio opsCenarioRelatorio).livros.find?
        (fun l => l.isbn == "B1") = some livro ∧
      "Titulo Um" = livro.titulo ∧ "Autor Um" = livro.autor := by
  exact (relatorio_livros_mais_emprestados_conteudo.1
    (executar cenarioRelatorio opsCenarioRelatorio) 10).2.2
    ⟨"B1", "Titulo Um", "Autor Um", 3⟩ (by decide)

/-- Outcome dichotomy of `registrar_emprestimo`: a failing call returns some
error with the state unchanged; a passing one returns the freshly built loan,
the appended loan store, the decremented stock, the incremented counter and
the bumped loan counter.  (The two collaborator calls on the success path
cannot fail: the user and the book were just found and the stock just checked
positive.) -/
theorem registrar_emprestimo_dicotomia (s : Sistema) (m isbn : String)
    (dias now : Int) :
    (∃ e, registrar_emprestimo s m isbn dias now = (.error e, s)) ∨
    (∃ livro, s.livros.find? (fun l => l.isbn == isbn) = some livro ∧
      livro.estoque ≠ 0) ∧
    registrar_emprestimo s m isbn dias now =
      (.ok ⟨empId (s.contador + 1), m, isbn, now, now + dias * 86400, none,
          StatusEmprestimo.ATIVO⟩,
       ⟨atualizarUsuario s.usuarios m
          (fun u => { u with emprestimos_ativos := u.emprestimos_ativos + 1 }),
        atualizarLivro s.livros isbn
          (fun l => { l with estoque := l.estoque - 1 }),
        s.emprestimos ++ [⟨empId (s.contador + 1), m, isbn, now,
          now + dias * 86400, none, StatusEmprestimo.ATIVO⟩],
        s.contador + 1⟩) := by
  cases hfu : s.usuarios.find? (fun u => u.matricula == m) with
  | none =>
    exact Or.inl ⟨.UsuarioNaoEncontrado,
      by simp [registrar_emprestimo, obter_usuario, hfu]⟩
  | some usuario =>
    by_cases hb : usuario.status = StatusUsuario.BLOQUEADO
    · exact Or.inl ⟨.UsuarioBloqueado,
        by simp [registrar_emprestimo, obter_usuario, hfu, hb]⟩
    · cases hfl : s.livros.find? (fun l => l.isbn == isbn) with
      | none =>
        exact Or.inl ⟨.LivroNaoEncontrado,
          by simp [registrar_emprestimo, obter_usuario, obter_livro, hfu, hfl, hb]⟩
      | some livro =>
        by_cases h0 : livro.estoque = 0
        · exact Or.inl ⟨.LivroIndisponivel,
            by simp [registrar_emprestimo, obter_usuario, obter_livro,
              verificar_disponibilidade, hfu, hfl, hb, h0]⟩
        · by_cases hdup : s.emprestimos.any (fun e =>
              e.matricula_usuario == m && e.isbn_livro == isbn &&
              e.status == StatusEmprestimo.ATIVO) = true
          · exact Or.inl ⟨.EmprestimoJaExiste,
              by simp [registrar_emprestimo, obter_usuario, obter_livro,
                verificar_disponibilidade, hfu, hfl, hb, h0, hdup,
                Nat.pos_iff_ne_zero]⟩
          · refine Or.inr ⟨⟨livro, rfl, h0⟩, ?_⟩
            simp [registrar_emprestimo, obter_usuario, obter_livro,
              verificar_disponibilidade, hfu, hfl, hb, h0, hdup,
              Nat.pos_iff_ne_zero, decrementar_estoque, incrementar_emprestimos]

/-- `registrar_devolucao` never touches the loan counter, on any path. -/
theorem registrar_devolucao_contador (s : Sistema) (idE : String) (now : Int) :
    ((registrar_devolucao s idE now).2).contador = s.contador := by
  rw [registrar_devolucao]
  split
  · rfl
  · split
    · rfl
    · dsimp only
      split
      · rfl
      · split
        · rfl
        · rfl

/-- The id stream of a run: starting from counter `c`, the successful
creations return `empId (c+1), empId (c+2), ...` in order, and the counter
never decreases. -/
theorem idsCriados_geral : ∀ (ops : List Op) (s : Sistema),
    idsCriados s ops =
      (List.range ((executar s ops).contador - s.contador)).map
        (fun i => empId (s.contador + i + 1)) ∧
    s.contador ≤ (executar s ops).contador
  | [], s => by simp [idsCriados, executar]
  | Op.devolucao idE now :: ops, s => by
    rcases hr : registrar_devolucao s idE now with ⟨r, s'⟩
    have hc : s'.contador = s.contador := by
      have h := registrar_devolucao_contador s idE now
      rwa [hr] at h
    obtain ⟨ih1, ih2⟩ := idsCriados_geral ops s'
    have hids : idsCriados s (Op.devolucao idE now :: ops) = idsCriados s' ops := by
      simp [idsCriados, aplicarOp, hr]
    have hexec : executar s (Op.devolucao idE now :: ops) = executar s' ops := by
      simp [executar, aplicarOp, hr]
    refine ⟨?_, ?_⟩
    · rw [hids, hexec, ih1, hc]
    · rw [hexec]
      omega
  | Op.emprestimo m isbn dias now :: ops, s => by
    rcases registrar_emprestimo_dicotomia s m isbn dias now with ⟨e, heq⟩ | ⟨-, heq⟩
    · obtain ⟨ih1, ih2⟩ := idsCriados_geral ops s
      have hids : idsCriados s (Op.emprestimo m isbn dias now :: ops) =
          idsCriados s ops := by
        simp [idsCriados, aplicarOp, heq]
      have hexec : executar s (Op.emprestimo m isbn dias now :: ops) =
          executar s ops := by
        simp [executar, aplicarOp, heq]
      rw [hids, hexec]
      exact ⟨ih1, ih2⟩
    · obtain ⟨ih1, ih2⟩ := idsCriados_geral ops
        ⟨atualizarUsuario s.usuarios m
          (fun u => { u with emprestimos_ativos := u.emprestimos_ativos + 1 }),
         atualizarLivro s.livros isbn
          (fun l => { l with estoque := l.estoque - 1 }),
         s.emprestimos ++ [⟨empId (s.contador + 1), m, isbn, now,
           now + dias * 86400, none, StatusEmprestimo.ATIVO⟩],
         s.contador + 1⟩
      have hids : idsCriados s (Op.emprestimo m isbn dias now :: ops) =
          empId (s.contador + 1) :: idsCriados
            ⟨atualizarUsuario s.usuarios m
              (fun u => { u with emprestimos_ativos := u.emprestimos_ativos + 1 }),
             atualizarLivro s.livros isbn
              (fun l => { l with estoque := l.estoque - 1 }),
             s.emprestimos ++ [⟨empId (s.contador + 1), m, isbn, now,
               now + dias * 86400, none, StatusEmprestimo.ATIVO⟩],
             s.contador + 1⟩ ops := by
        simp [idsCriados, aplicarOp, heq]
      have hexec : executar s (Op.emprestimo m isbn dias now :: ops) =
          executar
            ⟨atualizarUsuario s.usuarios m
              (fun u => { u with emprestimos_ativos := u.emprestimos_ativos + 1 }),
             atualizarLivro s.livros isbn
              (fun l => { l with estoque := l.estoque - 1 }),
             s.emprestimos ++ [⟨empId (s.contador + 1), m, isbn, now,
               now + dias * 86400, none, StatusEmprestimo.ATIVO⟩],
             s.contador + 1⟩ ops := by
        simp [executar, aplicarOp, heq]
      rw [hids, hexec, ih1]
      simp only at ih2 ⊢
      refine ⟨?_, by omega⟩
      have hsplit : (executar
          ⟨atualizarUsuario s.usuarios m
            (fun u => { u with emprestimos_ativos := u.emprestimos_ativos + 1 }),
           atualizarLivro s.livros isbn
            (fun l => { l with estoque := l.estoque - 1 }),
           s.emprestimos ++ [⟨empId (s.contador + 1), m, isbn, now,
             now + dias * 86400, none, StatusEmprestimo.ATIVO⟩],
           s.contador + 1⟩ ops).contador - s.contador =
          ((executar
          ⟨atualizarUsuario s.usuarios m
            (fun u => { u with emprestimos_ativos := u.emprestimos_ativos + 1 }),
           atualizarLivro s.livros isbn
            (fun l => { l with estoque := l.estoque - 1 }),
           s.emprestimos ++ [⟨empId (s.contador + 1), m, isbn, now,
             now + dias * 86400, none, StatusEmprestimo.ATIVO⟩],
           s.contador + 1⟩ ops).contador - (s.contador + 1)) + 1 := by
        omega
      rw [hsplit, List.range_succ_eq_map, List.map_cons, List.map_map]
      refine congrArg₂ List.cons (by simp) ?_
      apply List.map_congr_left
      intro i _
      simp only [Function.comp]
      congr 1
      omega

/-- C6: the loan counter starts at 0 at construction, is never changed by a
failed `create_loan` nor by `return_loan`, and is bumped exactly once by each
successful `create_loan`, whose returned loan id is `"EMP-"` ++ the new
counter value zero-padded to five digits; hence a run from a fresh
coordinator returns the strictly increasing ids `EMP-00001, EMP-00002, ...`
in order of success. -/
theorem contador_emprestimos_correto :
    (∀ us lv, (moduloEmprestimoInit us lv).contador = 0) ∧
    (∀ s m isbn dias now e s',
      registrar_emprestimo s m isbn dias now = (.error e, s') →
      s'.contador = s.contador) ∧
    (∀ s m isbn dias now emprestimo s',
      registrar_emprestimo s m isbn dias now = (.ok emprestimo, s') →
      s'.contador = s.contador + 1 ∧
      emprestimo.id_emprestimo = empId (s.contador + 1)) ∧
    (∀ s idE now, ((registrar_devolucao s idE now).2).contador = s.contador) ∧
    (∀ us lv ops,
      idsCriados (moduloEmprestimoInit us lv) ops =
        (List.range ((executar (moduloEmprestimoInit us lv) ops).contador)).map
          (fun i => empId (i + 1))) := by
  refine ⟨fun _ _ => rfl, ?_, ?_, registrar_devolucao_contador, ?_⟩
  · intro s m isbn dias now e s' h
    rcases registrar_emprestimo_dicotomia s m isbn dias now with ⟨e', heq⟩ | ⟨-, heq⟩
    · rw [h] at heq
      have h2 : s' = s := congrArg Prod.snd heq
      rw [h2]
    · rw [h] at heq
      exact absurd (congrArg Prod.fst heq) (by simp)
  · intro s m isbn dias now emprestimo s' h
    rcases registrar_emprestimo_dicotomia s m isbn dias now with ⟨e', heq⟩ | ⟨-, heq⟩
    · rw [h] at heq
      exact absurd (congrArg Prod.fst heq) (by simp)
    · rw [h] at heq
      have h1 : emprestimo = ⟨empId (s.contador + 1), m, isbn, now,
          now + dias * 86400, none, StatusEmprestimo.ATIVO⟩ :=
        Except.ok.inj (congrArg Prod.fst heq)
      have h2 : s' = ⟨atualizarUsuario s.usuarios m
          (fun u => { u with emprestimos_ativos := u.emprestimos_ativos + 1 }),
         atualizarLivro s.livros isbn
          (fun l => { l with estoque := l.estoque - 1 }),
         s.emprestimos ++ [⟨empId (s.contador + 1), m, isbn, now,
           now + dias * 86400, none, StatusEmprestimo.ATIVO⟩],
         s.contador + 1⟩ := congrArg Prod.snd heq
      rw [h1, h2]
      exact ⟨rfl, rfl⟩
  · intro us lv ops
    have h := (idsCriados_geral ops (moduloEmprestimoInit us lv)).1
    simpa [moduloEmprestimoInit] using h

/-- Key-preserving book updates commute with ISBN lookup. -/
theorem find?_atualizarLivro (lv : List Livro) (isbn isbn' : String)
    (f : Livro → Livro) (hf : ∀ l, (f l).isbn = l.isbn) :
    (atualizarLivro lv isbn f).find? (fun l => l.isbn == isbn') =
      (lv.find? (fun l => l.isbn == isbn')).map
        (fun l => if l.isbn == isbn then f l else l) := by
  apply find?_map_of_pred_preserved
  intro a
  by_cases h : (a.isbn == isbn) = true
  · simp [h, hf]
  · simp only [Bool.not_eq_true] at h
    simp [h]

/-- Stock updates never add or remove ISBNs. -/
theorem exists_isbn_atualizarLivro (lv : List Livro) (isbn x : String)
    (f : Livro → Livro) (hf : ∀ l, (f l).isbn = l.isbn)
    (h : ∃ l ∈ lv, l.isbn = x) :
    ∃ l ∈ atualizarLivro lv isbn f, l.isbn = x := by
  obtain ⟨l, hl, hx⟩ := h
  refine ⟨if (l.isbn == isbn) = true then f l else l,
    List.mem_map.mpr ⟨l, hl, by split <;> rfl⟩, ?_⟩
  split
  · rw [hf, hx]
  · exact hx

/-- Splitting a per-user active-loan count at a singled-out element. -/
theorem ativosDe_append_cons (l1 l2 : List Emprestimo) (x : Emprestimo)
    (mat : String) :
    ativosDe (l1 ++ x :: l2) mat =
      ativosDe l1 mat +
        (if (x.matricula_usuario == mat &&
            x.status == StatusEmprestimo.ATIVO) = true then 1 else 0) +
        ativosDe l2 mat := by
  rw [ativosDe, List.filter_append, List.filter_cons]
  split <;> (simp [ativosDe]; try omega)

/-- Appending one loan changes a per-user count by its own contribution. -/
theorem ativosDe_append (es : List Emprestimo) (x : Emprestimo) (mat : String) :
    ativosDe (es ++ [x]) mat =
      ativosDe es mat +
        (if (x.matricula_usuario == mat &&
            x.status == StatusEmprestimo.ATIVO) = true then 1 else 0) := by
  have h := ativosDe_append_cons es [] x mat
  simpa [ativosDe] using h

/-- Splitting a per-book active-loan count at a singled-out element. -/
theorem ativosDoLivroEm_append_cons (l1 l2 : List Emprestimo) (x : Emprestimo)
    (isbn : String) :
    ativosDoLivroEm (l1 ++ x :: l2) isbn =
      ativosDoLivroEm l1 isbn +
        (if (x.isbn_livro == isbn &&
            x.status == StatusEmprestimo.ATIVO) = true then 1 else 0) +
        ativosDoLivroEm l2 isbn := by
  rw [ativosDoLivroEm, List.filter_append, List.filter_cons]
  split <;> (simp [ativosDoLivroEm]; try omega)

/-- Appending one loan changes a per-book count by its own contribution. -/
theorem ativosDoLivroEm_append (es : List Emprestimo) (x : Emprestimo)
    (isbn : String) :
    ativosDoLivroEm (es ++ [x]) isbn =
      ativosDoLivroEm es isbn +
        (if (x.isbn_livro == isbn &&
            x.status == StatusEmprestimo.ATIVO) = true then 1 else 0) := by
  have h := ativosDoLivroEm_append_cons es [] x isbn
  simpa [ativosDoLivroEm] using h

/-- One coordinator call — successful or failing — preserves the counter
invariant together with the book-existence side condition. -/
theorem passo_invariante (s : Sistema) (op : Op)
    (h1 : contadoresCorretos s) (h2 : livrosDosAtivosExistem s) :
    contadoresCorretos (aplicarOp s op).2 ∧
    livrosDosAtivosExistem (aplicarOp s op).2 := by
  cases op with
  | emprestimo m isbn dias now =>
    rcases registrar_emprestimo_dicotomia s m isbn dias now with ⟨e, heq⟩ |
      ⟨⟨livro, hfl, h0⟩, heq⟩
    · simp only [aplicarOp, heq]
      exact ⟨h1, h2⟩
    · simp only [aplicarOp, heq]
      constructor
      · intro u' hu'
        simp only [atualizarUsuario] at hu'
        obtain ⟨u, hu, rfl⟩ := List.mem_map.mp hu'
        have hcnt := h1 u hu
        by_cases hum : (u.matricula == m) = true
        · have hmm : u.matricula = m := by simpa using hum
          simp only [hum, if_true]
          show u.emprestimos_ativos + 1 =
            ativosDe (s.emprestimos ++ [⟨empId (s.contador + 1), m, isbn, now,
              now + dias * 86400, none, StatusEmprestimo.ATIVO⟩]) u.matricula
          rw [ativosDe_append, hcnt.symm]
          simp [hmm]
        · simp only [hum, if_false]
          show u.emprestimos_ativos =
            ativosDe (s.emprestimos ++ [⟨empId (s.contador + 1), m, isbn, now,
              now + dias * 86400, none, StatusEmprestimo.ATIVO⟩]) u.matricula
          rw [ativosDe_append, hcnt.symm]
          have hmm : ¬ m = u.matricula := by
            simp only [Bool.not_eq_true] at hum
            intro h
            simp [h.symm] at hum
          simp [hmm]
      · intro e he hact
        rcases List.mem_append.mp he with hee | hee
        · exact exists_isbn_atualizarLivro _ _ _ _ (fun l => rfl) (h2 e hee hact)
        · have hiso : e.isbn_livro = isbn := by
            have : e = ⟨empId (s.contador + 1), m, isbn, now,
              now + dias * 86400, none, StatusEmprestimo.ATIVO⟩ := by simpa using hee
            rw [this]
          have hlm : livro ∈ s.livros := List.mem_of_find?_eq_some hfl
          have hli : livro.isbn = isbn := by simpa using List.find?_some hfl
          exact exists_isbn_atualizarLivro _ _ _ _ (fun l => rfl)
            ⟨livro, hlm, by rw [hli, hiso]⟩
  | devolucao idE now =>
    cases hfind : s.emprestimos.find? (fun e => e.id_emprestimo == idE) with
    | none =>
      have heq : registrar_devolucao s idE now =
          (.error .EmprestimoNaoEncontrado, s) := by
        simp [registrar_devolucao, hfind]
      simp only [aplicarOp, heq]
      exact ⟨h1, h2⟩
    | some emp =>
      by_cases hact : emp.status = StatusEmprestimo.ATIVO
      · have hmem := List.mem_of_find?_eq_some hfind
        obtain ⟨l1, l2, hdec, hni, hsub⟩ := substituir_decomp s.emprestimos idE
          emp ⟨emp.id_emprestimo, emp.matricula_usuario, emp.isbn_livro,
            emp.data_emprestimo, emp.data_devolucao_prevista, some now,
            StatusEmprestimo.DEVOLVIDO⟩ hfind
        obtain ⟨lB, hlB, hlBisbn⟩ := h2 emp hmem hact
        have hsomeB : (s.livros.find?
            (fun l => l.isbn == emp.isbn_livro)).isSome :=
          List.find?_isSome.mpr ⟨lB, hlB, by simp [hlBisbn]⟩
        obtain ⟨livroB, hfB⟩ := Option.isSome_iff_exists.mp hsomeB
        have hlivrosOk : ∀ e ∈ substituirEmprestimo idE
            ⟨emp.id_emprestimo, emp.matricula_usuario, emp.isbn_livro,
              emp.data_emprestimo, emp.data_devolucao_prevista, some now,
              StatusEmprestimo.DEVOLVIDO⟩ s.emprestimos,
            e.status = StatusEmprestimo.ATIVO →
            ∃ l ∈ atualizarLivro s.livros emp.isbn_livro
              (fun l => { l with estoque := l.estoque + 1 }), l.isbn = e.isbn_livro := by
          intro e he hea
          rw [hsub] at he
          rcases List.mem_append.mp he with hel | hel
          · exact exists_isbn_atualizarLivro _ _ _ _ (fun l => rfl)
              (h2 e (hdec ▸ List.mem_append.mpr (Or.inl hel)) hea)
          · rcases List.mem_cons.mp hel with rfl | hel
            · simp at hea
            · exact exists_isbn_atualizarLivro _ _ _ _ (fun l => rfl)
                (h2 e (hdec ▸ List.mem_append.mpr
                  (Or.inr (List.mem_cons.mpr (Or.inr hel)))) hea)
        cases hfu : s.usuarios.find?
            (fun u => u.matricula == emp.matricula_usuario) with
        | none =>
          have heq : registrar_devolucao s idE now =
              (.error .UsuarioNaoEncontrado,
               ⟨s.usuarios,
                atualizarLivro s.livros emp.isbn_livro
                  (fun l => { l with estoque := l.estoque + 1 }),
                substituirEmprestimo idE ⟨emp.id_emprestimo,
                  emp.matricula_usuario, emp.isbn_livro, emp.data_emprestimo,
                  emp.data_devolucao_prevista, some now,
                  StatusEmprestimo.DEVOLVIDO⟩ s.emprestimos,
                s.contador⟩) := by
            simp [registrar_devolucao, hfind, hact, incrementar_estoque,
              obter_livro, hfB, decrementar_emprestimos, obter_usuario, hfu]
          simp only [aplicarOp, heq]
          refine ⟨?_, hlivrosOk⟩
          intro u hu
          have hneq : ¬ (u.matricula == emp.matricula_usuario) = true :=
            List.find?_eq_none.mp hfu u hu
          have hneq' : ¬ emp.matricula_usuario = u.matricula := by
            simp only [beq_iff_eq] at hneq
            intro h
            exact hneq h.symm
          have hcnt := h1 u hu
          rw [hdec, ativosDe_append_cons] at hcnt
          rw [hsub, ativosDe_append_cons]
          simpa [hneq'] using hcnt
        | some u0 =>
          have heq : registrar_devolucao s idE now =
              (.ok ⟨emp.id_emprestimo, emp.matricula_usuario, emp.isbn_livro,
                emp.data_emprestimo, emp.data_devolucao_prevista, some now,
                StatusEmprestimo.DEVOLVIDO⟩,
               ⟨atualizarUsuario s.usuarios emp.matricula_usuario
                  (fun u => if u.emprestimos_ativos > 0 then
                    { u with emprestimos_ativos := u.emprestimos_ativos - 1 }
                  else u),
                atualizarLivro s.livros emp.isbn_livro
                  (fun l => { l with estoque := l.estoque + 1 }),
                substituirEmprestimo idE ⟨emp.id_emprestimo,
                  emp.matricula_usuario, emp.isbn_livro, emp.data_emprestimo,
                  emp.data_devolucao_prevista, some now,
                  StatusEmprestimo.DEVOLVIDO⟩ s.emprestimos,
                s.contador⟩) := by
            simp [registrar_devolucao, hfind, hact, incrementar_estoque,
              obter_livro, hfB, decrementar_emprestimos, obter_usuario, hfu]
          simp only [aplicarOp, heq]
          refine ⟨?_, hlivrosOk⟩
          intro u' hu'
          simp only [atualizarUsuario] at hu'
          obtain ⟨u, hu, rfl⟩ := List.mem_map.mp hu'
          have hcnt := h1 u hu
          rw [hdec, ativosDe_append_cons] at hcnt
          by_cases hum : (u.matricula == emp.matricula_usuario) = true
          · have hmm : emp.matricula_usuario = u.matricula := by
              have : u.matricula = emp.matricula_usuario := by simpa using hum
              exact this.symm
            have hpos : 0 < u.emprestimos_ativos := by
              rw [hcnt]
              simp [hmm, hact]
            simp only [hum, if_true, hpos, if_pos]
            show u.emprestimos_ativos - 1 =
              ativosDe (substituirEmprestimo idE ⟨emp.id_emprestimo,
                emp.matricula_usuario, emp.isbn_livro, emp.data_emprestimo,
                emp.data_devolucao_prevista, some now,
                StatusEmprestimo.DEVOLVIDO⟩ s.emprestimos) u.matricula
            rw [hsub, ativosDe_append_cons, hcnt]
            simp [hmm, hact]
          · have hmm : ¬ emp.matricula_usuario = u.matricula := by
              simp only [beq_iff_eq] at hum
              intro h
              exact hum h.symm
            simp only [hum, if_false]
            show u.emprestimos_ativos =
              ativosDe (substituirEmprestimo idE ⟨emp.id_emprestimo,
                emp.matricula_usuario, emp.isbn_livro, emp.data_emprestimo,
                emp.data_devolucao_prevista, some now,
                StatusEmprestimo.DEVOLVIDO⟩ s.emprestimos) u.matricula
            rw [hsub, ativosDe_append_cons]
            simpa [hmm] using hcnt
      · have heq : registrar_devolucao s idE now = (.error .Validacao, s) := by
          simp [registrar_devolucao, hfind, hact]
        simp only [aplicarOp, heq]
        exact ⟨h1, h2⟩

/-- C1 (amended): over any sequence of `create_loan`/`return_loan` calls
starting from a state where every user's counter equals their number of
active loans AND every active loan's book is still in the catalog, after
every operation (successful or failing) every user's counter again equals
their active-loan count (and the book-existence condition persists).  The
extra book-existence hypothesis is required: a `return_loan` that fails in
the catalog collaborator flips the loan without decrementing the counter. -/
theorem invariante_contadores (s : Sistema) (ops : List Op)
    (h1 : contadoresCorretos s) (h2 : livrosDosAtivosExistem s) :
    contadoresCorretos (executar s ops) ∧
    livrosDosAtivosExistem (executar s ops) := by
  induction ops generalizing s with
  | nil => exact ⟨h1, h2⟩
  | cons op ops ih =>
    obtain ⟨h1', h2'⟩ := passo_invariante s op h1 h2
    exact ih _ h1' h2'

/-- Witness for C1 (amended): a loan followed by its return keeps the counter
invariant. -/
theorem invariante_contadores_witness :
    contadoresCorretos (executar sistemaInvariante
      [.emprestimo "U1" "B1" 7 0, .devolucao "EMP-00001" 100]) ∧
    livrosDosAtivosExistem (executar sistemaInvariante
      [.emprestimo "U1" "B1" 7 0, .devolucao "EMP-00001" 100]) := by
  exact invariante_contadores sistemaInvariante
    [.emprestimo "U1" "B1" 7 0, .devolucao "EMP-00001" 100]
    (by decide) (by decide)

/-- C1 counterexample: from a state satisfying exactly the claim's hypothesis
(every counter equals the active-loan count), one `return_loan` — failing in
the catalog collaborator with `LivroNaoEncontrado` — leaves the counter at 1
while the user has 0 active loans: the invariant does not survive every
operation without the book-existence side condition. -/
theorem contadores_quebram_sem_livro :
    contadoresCorretos sistemaContadorQuebra ∧
    ¬ contadoresCorretos
      (executar sistemaContadorQuebra [.devolucao "EMP-00001" 5]) := by
  decide

/-- Stock lookup after a stock update: the found entry is the updated image
of the entry found before. -/
theorem estoqueEm_atualizar (lv : List Livro) (isbnT isbn : String)
    (f : Livro → Livro) (hf : ∀ l, (f l).isbn = l.isbn) :
    estoqueEm (atualizarLivro lv isbnT f) isbn =
      match lv.find? (fun l => l.isbn == isbn) with
      | none => 0
      | some l => if (l.isbn == isbnT) = true then (f l).estoque
                  else l.estoque := by
  rw [estoqueEm, find?_atualizarLivro lv isbnT isbn f hf]
  cases lv.find? (fun l => l.isbn == isbn) with
  | none => rfl
  | some l =>
    simp only [Option.map_some']
    split <;> rfl

/-- One coordinator call — successful or failing — preserves
stock + active-loans for every book currently in the catalog, and keeps the
book in the catalog. -/
theorem passo_conservacao (s : Sistema) (op : Op) (isbn : String)
    (hpres : ∃ l ∈ s.livros, l.isbn = isbn) :
    estoqueEm (aplicarOp s op).2.livros isbn +
      ativosDoLivroEm (aplicarOp s op).2.emprestimos isbn =
      estoqueEm s.livros isbn + ativosDoLivroEm s.emprestimos isbn ∧
    ∃ l ∈ (aplicarOp s op).2.livros, l.isbn = isbn := by
  obtain ⟨lP, hlP, hlPisbn⟩ := hpres
  have hsomeP : (s.livros.find? (fun l => l.isbn == isbn)).isSome :=
    List.find?_isSome.mpr ⟨lP, hlP, by simp [hlPisbn]⟩
  obtain ⟨livroP, hfP⟩ := Option.isSome_iff_exists.mp hsomeP
  have hlivroP : livroP.isbn = isbn := by simpa using List.find?_some hfP
  cases op with
  | emprestimo m isbnT dias now =>
    rcases registrar_emprestimo_dicotomia s m isbnT dias now with ⟨e, heq⟩ |
      ⟨⟨livro, hfl, h0⟩, heq⟩
    · simp only [aplicarOp, heq]
      exact ⟨by trivial, lP, hlP, hlPisbn⟩
    · simp only [aplicarOp, heq]
      refine ⟨?_, exists_isbn_atualizarLivro _ _ _ _ (fun l => rfl)
        ⟨lP, hlP, hlPisbn⟩⟩
      rw [estoqueEm_atualizar s.livros isbnT isbn
        (fun l => { l with estoque := l.estoque - 1 }) (fun l => rfl), hfP,
        ativosDoLivroEm_append, estoqueEm, hfP]
      by_cases hsame : isbnT = isbn
      · subst hsame
        have hsame' : livroP = livro := by
          rw [hfP] at hfl
          exact Option.some.inj hfl
        subst hsame'
        have h0' : livroP.estoque ≠ 0 := h0
        simp [hlivroP]
        show livroP.estoque - 1 + (ativosDoLivroEm s.emprestimos isbnT + 1) =
          livroP.estoque + ativosDoLivroEm s.emprestimos isbnT
        omega
      · have hP : ¬ livroP.isbn = isbnT := by
          rw [hlivroP]
          exact fun h => hsame h.symm
        have hT : (isbnT == isbn) = false := by
          simp only [beq_eq_false_iff_ne, ne_eq]
          exact hsame
        simp [hP, hT]
  | devolucao idE now =>
    cases hfind : s.emprestimos.find? (fun e => e.id_emprestimo == idE) with
    | none =>
      have heq : registrar_devolucao s idE now =
          (.error .EmprestimoNaoEncontrado, s) := by
        simp [registrar_devolucao, hfind]
      simp only [aplicarOp, heq]
      exact ⟨by trivial, lP, hlP, hlPisbn⟩
    | some emp =>
      by_cases hact : emp.status = StatusEmprestimo.ATIVO
      · obtain ⟨l1, l2, hdec, hni, hsub⟩ := substituir_decomp s.emprestimos idE
          emp ⟨emp.id_emprestimo, emp.matricula_usuario, emp.isbn_livro,
            emp.data_emprestimo, emp.data_devolucao_prevista, some now,
            StatusEmprestimo.DEVOLVIDO⟩ hfind
        cases hfB : s.livros.find? (fun l => l.isbn == emp.isbn_livro) with
        | none =>
          have hneq : ¬ emp.isbn_livro = isbn := by
            intro h
            rw [h, hfP] at hfB
            cases hfB
          have heq : registrar_devolucao s idE now =
              (.error .LivroNaoEncontrado,
               ⟨s.usuarios, s.livros,
                substituirEmprestimo idE ⟨emp.id_emprestimo,
                  emp.matricula_usuario, emp.isbn_livro, emp.data_emprestimo,
                  emp.data_devolucao_prevista, some now,
                  StatusEmprestimo.DEVOLVIDO⟩ s.emprestimos,
                s.contador⟩) := by
            simp [registrar_devolucao, hfind, hact, incrementar_estoque,
              obter_livro, hfB]
          simp only [aplicarOp, heq]
          refine ⟨?_, lP, hlP, hlPisbn⟩
          rw [hsub, hdec, ativosDoLivroEm_append_cons, ativosDoLivroEm_append_cons]
          simp [hneq]
        | some livroB =>
          have hstep : ∀ us' : List Usuario,
              estoqueEm (atualizarLivro s.livros emp.isbn_livro
                  (fun l => { l with estoque := l.estoque + 1 })) isbn +
                ativosDoLivroEm (substituirEmprestimo idE ⟨emp.id_emprestimo,
                  emp.matricula_usuario, emp.isbn_livro, emp.data_emprestimo,
                  emp.data_devolucao_prevista, some now,
                  StatusEmprestimo.DEVOLVIDO⟩ s.emprestimos) isbn =
                estoqueEm s.livros isbn + ativosDoLivroEm s.emprestimos isbn := by
            intro _
            rw [estoqueEm_atualizar s.livros emp.isbn_livro isbn
              (fun l => { l with estoque := l.estoque + 1 }) (fun l => rfl), hfP,
              hsub, hdec, ativosDoLivroEm_append_cons, ativosDoLivroEm_append_cons,
              estoqueEm, hfP]
            by_cases hsame : emp.isbn_livro = isbn
            · have hPB : livroP = livroB := by
                rw [hsame, hfP] at hfB
                exact Option.some.inj hfB
              subst hPB
              have hPif : (livroP.isbn == emp.isbn_livro) = true := by
                simp [hlivroP, hsame]
              have hpred : (emp.isbn_livro == isbn &&
                  emp.status == StatusEmprestimo.ATIVO) = true := by
                simp [hsame, hact]
              simp [hPif, hpred]
              show livroP.estoque + 1 +
                  (ativosDoLivroEm l1 isbn + ativosDoLivroEm l2 isbn) =
                livroP.estoque +
                  (ativosDoLivroEm l1 isbn + 1 + ativosDoLivroEm l2 isbn)
              omega
            · have hP : ¬ livroP.isbn = emp.isbn_livro := by
                rw [hlivroP]
                exact fun h => hsame h.symm
              simp [hP, hsame]
          have hpres' : ∃ l ∈ atualizarLivro s.livros emp.isbn_livro
              (fun l => { l with estoque := l.estoque + 1 }), l.isbn = isbn :=
            exists_isbn_atualizarLivro _ _ _ _ (fun l => rfl) ⟨lP, hlP, hlPisbn⟩
          cases hfu : s.usuarios.find?
              (fun u => u.matricula == emp.matricula_usuario) with
          | none =>
            have heq : registrar_devolucao s idE now =
                (.error .UsuarioNaoEncontrado,
                 ⟨s.usuarios,
                  atualizarLivro s.livros emp.isbn_livro
                    (fun l => { l with estoque := l.estoque + 1 }),
                  substituirEmprestimo idE ⟨emp.id_emprestimo,
                    emp.matricula_usuario, emp.isbn_livro, emp.data_emprestimo,
                    emp.data_devolucao_prevista, some now,
                    StatusEmprestimo.DEVOLVIDO⟩ s.emprestimos,
                  s.contador⟩) := by
              simp [registrar_devolucao, hfind, hact, incrementar_estoque,
                obter_livro, hfB, decrementar_emprestimos, obter_usuario, hfu]
            simp only [aplicarOp, heq]
            exact ⟨hstep s.usuarios, hpres'⟩
          | some u0 =>
            have heq : registrar_devolucao s idE now =
                (.ok ⟨emp.id_emprestimo, emp.matricula_usuario, emp.isbn_livro,
                  emp.data_emprestimo, emp.data_devolucao_prevista, some now,
                  StatusEmprestimo.DEVOLVIDO⟩,
                 ⟨atualizarUsuario s.usuarios emp.matricula_usuario
                    (fun u => if u.emprestimos_ativos > 0 then
                      { u with emprestimos_ativos := u.emprestimos_ativos - 1 }
                    else u),
                  atualizarLivro s.livros emp.isbn_livro
                    (fun l => { l with estoque := l.estoque + 1 }),
                  substituirEmprestimo idE ⟨emp.id_emprestimo,
                    emp.matricula_usuario, emp.isbn_livro, emp.data_emprestimo,
                    emp.data_devolucao_prevista, some now,
                    StatusEmprestimo.DEVOLVIDO⟩ s.emprestimos,
                  s.contador⟩) := by
              simp [registrar_devolucao, hfind, hact, incrementar_estoque,
                obter_livro, hfB, decrementar_emprestimos, obter_usuario, hfu]
            simp only [aplicarOp, heq]
            exact ⟨hstep s.usuarios, hpres'⟩
      · have heq : registrar_devolucao s idE now = (.error .Validacao, s) := by
          simp [registrar_devolucao, hfind, hact]
        simp only [aplicarOp, heq]
        exact ⟨by trivial, lP, hlP, hlPisbn⟩

/-- Conservation along a whole run, for a book present in the catalog. -/
theorem conservacao_geral (isbn : String) (n : Nat) :
    ∀ (ops : List Op) (s : Sistema),
      (∃ l ∈ s.livros, l.isbn = isbn) →
      estoqueEm s.livros isbn + ativosDoLivroEm s.emprestimos isbn = n →
      estoqueEm (executar s ops).livros isbn +
        ativosDoLivroEm (executar s ops).emprestimos isbn = n
  | [], _, _, h => h
  | op :: ops, s, hpres, h => by
    obtain ⟨hstep, hpres'⟩ := passo_conservacao s op isbn hpres
    exact conservacao_geral isbn n ops _ hpres' (by rw [hstep]; exact h)

/-- C3 (amended): register a book with initial stock `s0` at a moment when no
already-stored loan with status `ATIVO` references its ISBN; then after every
sequence of `create_loan`/`return_loan` calls, the book's current stock plus
the number of currently-active loans on that ISBN equals `s0`.  The
no-stale-loan proviso is required: a leftover active loan from before a
remove/re-register pair breaks the equation from the start. -/
theorem conservacao_estoque (s : Sistema) (isbn titulo autor : String)
    (estoque : Nat) (editora : Option String) (ano : Option Int)
    (livro : Livro) (lv' : List Livro)
    (hcad : cadastrar_livro s.livros isbn titulo autor estoque editora ano =
      .ok (livro, lv'))
    (hstale : ativosDoLivroEm s.emprestimos isbn = 0) (ops : List Op) :
    estoqueEm (executar { s with livros := lv' } ops).livros isbn +
      ativosDoLivroEm (executar { s with livros := lv' } ops).emprestimos isbn =
      estoque := by
  rw [cadastrar_livro] at hcad
  split at hcad
  · cases hcad
  · split at hcad
    · cases hcad
    · split at hcad
      · cases hcad
      · split at hcad
        · cases hcad
        · rename_i hdup hisbn htit haut
          have hfound : s.livros.find? (fun l => l.isbn == isbn) = none := by
            cases hfind : s.livros.find? (fun l => l.isbn == isbn) with
            | none => rfl
            | some l =>
              rw [hfind] at hdup
              simp at hdup
          have hlv : lv' = s.livros ++
              [⟨isbn, titulo, autor, estoque, .DISPONIVEL, editora, ano⟩] := by
            have h2 := congrArg Prod.snd (Except.ok.inj hcad)
            exact h2.symm
          have hbase : estoqueEm lv' isbn = estoque := by
            rw [hlv, estoqueEm, find?_append_all_false _ _ _
              (fun x hx => Bool.eq_false_iff.mpr
                (List.find?_eq_none.mp hfound x hx))]
            simp [List.find?_cons]
          apply conservacao_geral isbn estoque ops
          · rw [hlv]
            exact ⟨⟨isbn, titulo, autor, estoque, .DISPONIVEL, editora, ano⟩,
              List.mem_append.mpr (Or.inr (List.mem_cons_self _ _)), rfl⟩
          · show estoqueEm lv' isbn + ativosDoLivroEm s.emprestimos isbn = estoque
            rw [hbase, hstale]
            rfl

/-- Witness for C3 (amended): register B1 with stock 2 into an empty catalog
and lend it once; stock (1) plus active loans (1) still equals 2. -/
theorem conservacao_estoque_witness :
    estoqueEm (executar { sistemaSoUsuario with
        livros := [⟨"B1", "Titulo Um", "Autor Um", 2, .DISPONIVEL, none, none⟩] }
      [.emprestimo "U1" "B1" 7 0]).livros "B1" +
      ativosDoLivroEm (executar { sistemaSoUsuario with
        livros := [⟨"B1", "Titulo Um", "Autor Um", 2, .DISPONIVEL, none, none⟩] }
      [.emprestimo "U1" "B1" 7 0]).emprestimos "B1" = 2 := by
  exact conservacao_estoque sistemaSoUsuario "B1" "Titulo Um" "Autor Um" 2
    none none ⟨"B1", "Titulo Um", "Autor Um", 2, .DISPONIVEL, none, none⟩
    [⟨"B1", "Titulo Um", "Autor Um", 2, .DISPONIVEL, none, none⟩]
    rfl (by decide) [.emprestimo "U1" "B1" 7 0]

/-- C3 counterexample: B1 is registered with initial stock 5 (the
`cadastrar_livro` call succeeds because its ISBN is free), but a stale active
loan still references "B1"; after one successful `create_loan` the stock (4)
plus the active-loan count (2) is 6, not 5 — the claim fails without the
no-stale-loan proviso. -/
theorem conservacao_falha_com_emprestimo_antigo :
    cadastrar_livro sistemaEmprestimoAntigo.livros "B1" "Titulo Um" "Autor Um"
        5 none none =
      .ok (⟨"B1", "Titulo Um", "Autor Um", 5, .DISPONIVEL, none, none⟩,
        [⟨"B1", "Titulo Um", "Autor Um", 5, .DISPONIVEL, none, none⟩]) ∧
    estoqueEm (executar sistemaLivroRecadastrado
        [.emprestimo "U2" "B1" 7 0]).livros "B1" +
      ativosDoLivroEm (executar sistemaLivroRecadastrado
        [.emprestimo "U2" "B1" 7 0]).emprestimos "B1" = 6 ∧
    (6 : Nat) ≠ 5 :=
  ⟨rfl, by decide, by decide⟩

/-- Witness for C6: the first successful `create_loan` bumps the counter from
0 to 1 and returns id "EMP-00001", while a failing call (unknown user) leaves
the counter alone. -/
theorem contador_emprestimos_correto_witness :
    ((⟨[⟨"U1", "Ana Silva", .ALUNO, .ATIVO, none, none, 1⟩],
       [⟨"B1", "Titulo Um", "Autor Um", 0, .DISPONIVEL, none, none⟩],
       [⟨"EMP-00001", "U1", "B1", 0, 604800, none, StatusEmprestimo.ATIVO⟩],
       1⟩ : Sistema).contador = sistemaContadorTeste.contador + 1 ∧
      ("EMP-00001" : String) = empId (sistemaContadorTeste.contador + 1)) ∧
    sistemaContadorTeste.contador = sistemaContadorTeste.contador := by
  constructor
  · exact contador_emprestimos_correto.2.2.1 sistemaContadorTeste "U1" "B1" 7 0
      ⟨"EMP-00001", "U1", "B1", 0, 604800, none, StatusEmprestimo.ATIVO⟩
      ⟨[⟨"U1", "Ana Silva", .ALUNO, .ATIVO, none, none, 1⟩],
       [⟨"B1", "Titulo Um", "Autor Um", 0, .DISPONIVEL, none, none⟩],
       [⟨"EMP-00001", "U1", "B1", 0, 604800, none, StatusEmprestimo.ATIVO⟩],
       1⟩ rfl
  · exact contador_emprestimos_correto.2.1 sistemaContadorTeste "U2" "B1" 7 0
      .UsuarioNaoEncontrado sistemaContadorTeste rfl
